import Mathlib

set_option maxRecDepth 400000
set_option maxHeartbeats 4000000

/-!
Verification development for the `hulotte` project-generator scripts
(`create_project.py`, `install_dependencies.py`, `hulotte_utils.py`,
`add_custom_module.py`).

The Python sources are embedded shallowly:

* text generation (`create_cmakelists`, `create_main_cpp`,
  `create_custom_module`, the build script, README, .gitignore) is
  embedded as pure `String` functions that reproduce the generated
  bytes exactly (Python `str(None)` is modelled by `pyOptStr`);
* the interactive prompt layer (`input`, `ask_yes_no`, `ask_path`,
  `ask_name`, ...) is embedded as functions threading an explicit list
  of operator input lines and returning the consumed/remaining inputs
  together with the ordered list of emitted console messages; running
  out of input models Python's `EOFError` as `Option.none`;
* the filesystem is abstracted as an existence predicate
  `fs : String → Bool`; `Path.expanduser`/`Path.resolve` are modelled
  as the identity on the path string (no claim below depends on path
  canonicalisation);
* external commands are abstracted by an oracle `run : String → Bool`
  from the exact command string to its success, and `os.cpu_count()`
  by an `Option Nat`.
-/

namespace Hulotte

/-! ### Generic string-scanning helpers

`listOccursSimple pat s` is the plain one-character-at-a-time scan for
an occurrence of `pat` inside `s`; `listOccurs` is the same function
unrolled four positions per recursive step so that kernel reduction on
multi-kilobyte generated files stays shallow.  `strOccurs` is the
`String` version used in all statements about generated text. -/

def listOccursSimple (pat : List Char) : List Char → Bool
  | [] => pat.isEmpty
  | c :: t => pat.isPrefixOf (c :: t) || listOccursSimple pat t

def listOccurs (pat : List Char) : List Char → Bool
  | a :: b :: c :: d :: t =>
      pat.isPrefixOf (a :: b :: c :: d :: t) ||
      (pat.isPrefixOf (b :: c :: d :: t) ||
      (pat.isPrefixOf (c :: d :: t) ||
      (pat.isPrefixOf (d :: t) || listOccurs pat t)))
  | s => listOccursSimple pat s

def strOccurs (pat s : String) : Bool := listOccurs pat.data s.data

/-- Right-nested concatenation of a list of strings (kept right-nested so
that kernel evaluation of the resulting character list is iterative). -/
def cat (xs : List String) : String := xs.foldr (fun a b => a ++ b) ""

/-- Python `str` applied to an `Optional[str]`: `str(None) = "None"`. -/
def pyOptStr : Option String → String
  | some s => s
  | none => "None"

/-- Python `str.strip()` (whitespace from both ends), implemented by
structural recursion on the character list so that it evaluates inside the
kernel. -/
def py_strip (s : String) : String :=
  ⟨((s.data.dropWhile Char.isWhitespace).reverse.dropWhile Char.isWhitespace).reverse⟩

/-- Python `str.lower()` on the ASCII fragment used by the prompts. -/
def py_lower (s : String) : String := ⟨s.data.map Char.toLower⟩

/-- One console interaction of the scripts: a prompt shown by `input`, a plain
`print`, or one of the coloured helpers of `hulotte_utils`
(`print_info` / `print_warning` / `print_error` / `print_success`). -/
inductive Msg where
  | ask (q : String)
  | plain (t : String)
  | info (t : String)
  | warn (t : String)
  | err (t : String)
  | ok (t : String)
  deriving DecidableEq, Repr

namespace CreateProject

/-! ### The interactive prompt layer (create_project.py lines 151-222)

Each function threads the list of pending operator input lines and
returns the produced value, the remaining inputs and the ordered list of
console messages; `none` models Python's `EOFError` when `input()` is
called with no input left.  The looping functions that can consume more
than one input per iteration (`ask_path` and the two root validators)
take an explicit fuel argument; since every loop iteration consumes at
least one input line, calling them with `fuel = inputs.length` behaves
exactly like the unbounded Python loop (fuel exhaustion and input
exhaustion coincide). -/

/-- Lines 151-163: `ask_yes_no` (accepts `y`/`yes`/`n`/`no`, empty picks the
default, anything else re-prompts). -/
def ask_yes_no (question : String) (dflt : Bool) :
    List String → Option (Bool × List String × List Msg)
  | [] => none
  | r :: rest =>
    let prompt := question ++ (" [" ++ ((if dflt then "Y/n" else "y/N") ++ "]: "))
    let resp := py_lower (py_strip r)
    if resp == "y" || resp == "yes" then some (true, rest, [.ask prompt])
    else if resp == "n" || resp == "no" then some (false, rest, [.ask prompt])
    else if resp == "" then some (dflt, rest, [.ask prompt])
    else
      match ask_yes_no question dflt rest with
      | none => none
      | some (b, rem, ms) =>
        some (b, rem, .ask prompt :: (.plain "Please answer 'y' or 'n'" :: ms))

/-- Python `str.isalnum`, instantiated at `Char.isAlphanum` — the ASCII
instantiation of the oracle form `py_isalnum_w` below.  On the ASCII range
the two tests coincide (both accept exactly `[0-9A-Za-z]` there); this
concrete form only backs statements whose inputs are ASCII, and every
statement about the full Unicode behaviour of the name test (claim C7)
uses the oracle form instead. -/
def py_isalnum (s : String) : Bool :=
  !s.data.isEmpty && s.data.all Char.isAlphanum

/-- `response.replace("_", "").replace("-", "")` from line 219. -/
def strip_sep (s : String) : String :=
  ⟨s.data.filter (fun c => !(c == '_' || c == '-'))⟩

/-- The acceptance test of `ask_name` (line 219),
`response and response.replace("_", "").replace("-", "").isalnum()`,
at the ASCII instantiation of the character oracle (see `py_isalnum`). -/
def py_valid_name (s : String) : Bool :=
  !(s == "") && py_isalnum (strip_sep s)

/-- The project-name language stated by the specification: a non-empty string
matching `[A-Za-z0-9_-]+` (definition follows the specification's words, for
comparison with `py_valid_name` which follows the source). -/
def regex_valid_name (s : String) : Bool :=
  !(s == "") && s.data.all (fun c => c.isAlphanum || (c == '_' || c == '-'))

/-- The prompt text of an `input` call with an optional default
(`f"{question} [{default}]: "` / `f"{question}: "`). -/
def prompt_of (question : String) : Option String → String
  | some d => question ++ (" [" ++ (d ++ "]: "))
  | none => question ++ ": "

/-- The response of an `input` call with an optional default: the stripped
input line, or the default when the stripped line is empty. -/
def response_of (dflt : Option String) (r : String) : String :=
  match dflt with
  | some d => if py_strip r == "" then d else py_strip r
  | none => py_strip r

/-- Lines 209-222: `ask_name` (re-prompts until `py_valid_name` accepts). -/
def ask_name (question : String) (dflt : Option String) :
    List String → Option (String × List String × List Msg)
  | [] => none
  | r :: rest =>
    if py_valid_name (response_of dflt r) then
      some (response_of dflt r, rest, [.ask (prompt_of question dflt)])
    else
      match ask_name question dflt rest with
      | none => none
      | some (n, rem, ms) =>
        some (n, rem,
          .ask (prompt_of question dflt) ::
            (.plain "Invalid name. Use alphanumeric characters, hyphens, or underscores." :: ms))

/-- Python `str.isalnum` over an explicit per-character oracle `alnum`:
non-empty and every character accepted.  The real `str.isalnum` consults
the Unicode character tables, which are not part of this repository, so
the embedding abstracts the per-character test; the C7 theorems pin the
oracle down only by the two documented facts they use (agreement with
`Char.isAlphanum` on the ASCII range, acceptance of the non-ASCII
alphanumeric U+00E9). -/
def py_isalnum_w (alnum : Char → Bool) (s : String) : Bool :=
  !s.data.isEmpty && s.data.all alnum

/-- The acceptance test of `ask_name` (line 219) over the `alnum` oracle:
`response and response.replace("_", "").replace("-", "").isalnum()`. -/
def py_valid_name_w (alnum : Char → Bool) (s : String) : Bool :=
  !(s == "") && py_isalnum_w alnum (strip_sep s)

/-- Lines 209-222: `ask_name` over the `alnum` oracle. -/
def ask_name_w (alnum : Char → Bool) (question : String) (dflt : Option String) :
    List String → Option (String × List String × List Msg)
  | [] => none
  | r :: rest =>
    if py_valid_name_w alnum (response_of dflt r) then
      some (response_of dflt r, rest, [.ask (prompt_of question dflt)])
    else
      match ask_name_w alnum question dflt rest with
      | none => none
      | some (n, rem, ms) =>
        some (n, rem,
          .ask (prompt_of question dflt) ::
            (.plain "Invalid name. Use alphanumeric characters, hyphens, or underscores." :: ms))

/-- A concrete character test satisfying the two pinned `str.isalnum`
facts: it behaves as `Char.isAlphanum` on the ASCII range (U+00E9 is not
ASCII, so the extra disjunct never fires there) and accepts U+00E9
(`"é".isalnum()` is `True` in Python).  It instantiates the oracle in the
closed C7 counterexample and witness. -/
def alnum_sample (c : Char) : Bool := c.isAlphanum || c == 'é'

/-- Lines 166-182: `ask_path`.  The filesystem is the oracle `fs`;
`Path.expanduser`/`resolve` are modelled as the identity on the string. -/
def ask_path (fs : String → Bool) :
    Nat → String → Option String → Bool → List String →
    Option (String × List String × List Msg)
  | 0, _, _, _, _ => none
  | _ + 1, _, _, _, [] => none
  | fuel + 1, q, dflt, must_exist, r :: rest =>
    let prompt := prompt_of q dflt
    let resp := response_of dflt r
    if !must_exist || fs resp then some (resp, rest, [.ask prompt])
    else
      match ask_yes_no "Try anyway?" false rest with
      | none => none
      | some (b, i2, m2) =>
        let ms := .ask prompt :: (.plain ("Path does not exist: " ++ resp) :: m2)
        if b then some (resp, i2, ms)
        else
          match ask_path fs fuel q dflt must_exist i2 with
          | none => none
          | some (p, i3, m3) => some (p, i3, ms ++ m3)

/-- Lines 185-194: `ask_streampu_root` (validates
`<root>/build/lib/libstreampu.a`, offers to try another path). -/
def ask_streampu_root (fs : String → Bool) :
    Nat → Option String → List String → Option (String × List String × List Msg)
  | 0, _, _ => none
  | fuel + 1, dflt, inputs =>
    match ask_path fs inputs.length "Path to StreamPU directory" dflt true inputs with
    | none => none
    | some (root, i1, m1) =>
      if fs (root ++ "/build/lib/libstreampu.a") then some (root, i1, m1)
      else
        let m2 : List Msg :=
          [.plain ("libstreampu.a not found at " ++ (root ++ "/build/lib/libstreampu.a"))]
        match ask_yes_no "Try another StreamPU path?" true i1 with
        | none => none
        | some (b, i2, m3) =>
          if b then
            match ask_streampu_root fs fuel dflt i2 with
            | none => none
            | some (r2, i3, m4) => some (r2, i3, m1 ++ (m2 ++ (m3 ++ m4)))
          else some (root, i2, m1 ++ (m2 ++ m3))

/-- Lines 197-206: `ask_aff3ct_root` (validates `<root>/include/aff3ct.hpp`). -/
def ask_aff3ct_root (fs : String → Bool) :
    Nat → Option String → List String → Option (String × List String × List Msg)
  | 0, _, _ => none
  | fuel + 1, dflt, inputs =>
    match ask_path fs inputs.length "Path to AFF3CT directory" dflt true inputs with
    | none => none
    | some (root, i1, m1) =>
      if fs (root ++ "/include/aff3ct.hpp") then some (root, i1, m1)
      else
        let m2 : List Msg :=
          [.plain ("aff3ct.hpp not found at " ++ (root ++ "/include/aff3ct.hpp"))]
        match ask_yes_no "Try another AFF3CT path?" true i1 with
        | none => none
        | some (b, i2, m3) =>
          if b then
            match ask_aff3ct_root fs fuel dflt i2 with
            | none => none
            | some (r2, i3, m4) => some (r2, i3, m1 ++ (m2 ++ (m3 ++ m4)))
          else some (root, i2, m1 ++ (m2 ++ m3))

/-! ### `create_main_cpp` (create_project.py lines 357-500)

Every definition below mirrors one local variable or literal block of
the Python function; the exact bytes (including trailing whitespace
inside the Python triple-quoted literals) are reproduced. -/

/-- Lines 360-369: the `includes` local. -/
def includes_str (use_custom use_aff3ct : Bool) : String :=
  "#include <iostream>\n#include <vector>\n#include <fstream>\n#include <streampu.hpp>\n"
  ++ ((if use_aff3ct then "#include <aff3ct.hpp>\n" else "")
  ++ (if use_custom then "#include \"custom/MyModule.hpp\"\n" else ""))

/-- Lines 375-396: the AFF3CT `modules` literal (RS encoder/decoder chain). -/
def modules_aff3ct_lit : String :=
  "\n    // 1. Modules creation\n    \n    // RS(255, 239) => t=8, m=8. Bits 2040 -> 1912.\n    // NOTE: This uses aff3ct B_32 (32-bit integer) template instantiation.\n    const int N_rs = 255;  // Symbols\n    const int K_rs = 239;  // Symbols\n    const int m = 8;       // Bits per symbol\n    const int t = (N_rs - K_rs) / 2; // Correction power\n    const int N = N_rs * m; // Total bits\n    const int K = K_rs * m; // Info bits\n\n    module::Source_random<> source(K);\n    module::Finalizer    <> finalizer(K);\n    \n    // Create RS Polynomial Generator (needed for RS construction)\n    aff3ct::tools::RS_polynomial_generator poly(N_rs, t);\n    \n    // Create Encoder and Decoder\n    aff3ct::module::Encoder_RS<>     encoder(K_rs, N_rs, poly);\n    aff3ct::module::Decoder_RS_std<> decoder(K_rs, N_rs, poly);    \n"

/-- Lines 431-440: the StreamPU `modules` literal (Initializer/Incrementer/Finalizer chain). -/
def modules_spu_lit : String :=
  "\n    // 1. Modules creation\n    const int n_elmts = 16;\n    module::Initializer<int> initializer(n_elmts);\n    module::Incrementer<int> incrementer(n_elmts);\n    module::Finalizer  <int> finalizer(n_elmts);\n"

/-- The `modules` local of `create_main_cpp` after both `if use_custom` extensions. -/
def modules_str (use_custom use_aff3ct : Bool) : String :=
  if use_aff3ct then
    modules_aff3ct_lit ++
      (if use_custom then "    module::MyModule         my_module(K);\n" else "")
  else
    modules_spu_lit ++
      (if use_custom then "    module::MyModule         my_module(n_elmts);\n" else "")

/-- Lines 401-427: the `sockets_bind` local in the AFF3CT branch. -/
def sockets_bind_aff3ct (use_custom : Bool) : String :=
  "\n    // 2. Sockets binding\n    using namespace aff3ct::module;\n    using namespace aff3ct::tools;\n"
  ++ (if use_custom then
    "    // Init -> Custom -> Encoder -> Decoder -> Finalizer\n            \n    // Warning: Socket binding uses explicit cast to (int) for C++11 enum classes\n    source   [src::tsk::generate][(int)src::sck::generate::out_data] = my_module [\"process::in\"];\n    my_module[\"process::out\"]  = encoder   [enc::tsk::encode][(int)enc::sck::encode::U_K];\n    \n    encoder  [enc::tsk::encode][(int)enc::sck::encode::X_N] = \n          decoder[dec::tsk::decode_hiho][(int)dec::sck::decode_hiho::Y_N];\n          \n    decoder  [dec::tsk::decode_hiho][(int)dec::sck::decode_hiho::V_K] = finalizer[\"finalize::in\"];\n"
  else
    "    // Init -> Encoder -> Decoder -> Finalizer\n            \n    source   [src::tsk::generate][(int)src::sck::generate::out_data] = encoder   [enc::tsk::encode][(int)enc::sck::encode::U_K];\n    \n    encoder[enc::tsk::encode][(int)enc::sck::encode::X_N] = \n          decoder[dec::tsk::decode_hiho][(int)dec::sck::decode_hiho::Y_N];\n          \n    decoder[dec::tsk::decode_hiho][(int)dec::sck::decode_hiho::V_K] = finalizer[\"finalize::in\"];\n")

/-- Lines 442-453: the `sockets_bind` local in the StreamPU branch. -/
def sockets_bind_spu (use_custom : Bool) : String :=
  "\n    // 2. Sockets binding\n"
  ++ (if use_custom then
    "    initializer[\"initialize::out\"] = incrementer[\"increment::in\"];\n    incrementer[\"increment::out\"] = my_module  [\"process::in\"];\n    my_module  [\"process::out\"]   = finalizer  [\"finalize::in\"];\n"
  else
    "    initializer[\"initialize::out\"] = incrementer[\"increment::in\"];\n    incrementer[\"increment::out\"] = finalizer  [\"finalize::in\"];\n")

/-- The `sockets_bind` local of `create_main_cpp` (both branches). -/
def sockets_bind (use_custom use_aff3ct : Bool) : String :=
  if use_aff3ct then sockets_bind_aff3ct use_custom else sockets_bind_spu use_custom

/-- Line 455: the `first_task_code` local. -/
def first_task_code (use_aff3ct : Bool) : String :=
  if use_aff3ct then "first_tasks.push_back(&source(\"generate\"));"
  else "first_tasks.push_back(&initializer(\"initialize\"));"

/-- Fixed text of the generated `main.cpp` between `includes` and `modules`. -/
def main_mid_1 : String :=
  "\nusing namespace spu;\nusing namespace spu::module;\n\nint main(int argc, char** argv)\n\x7b\n    std::cout << \"Starting Hulotte project...\" << std::endl;\n\n"

/-- Fixed text of the generated `main.cpp` between `sockets_bind` and `first_task_code`. -/
def main_mid_2 : String :=
  "\n    \n    // 3. Sequence creation\n    std::vector<runtime::Task*> first_tasks;\n    "

/-- Fixed text of the generated `main.cpp` after `first_task_code`. -/
def main_tail : String :=
  "\n\n    runtime::Sequence sequence(first_tasks);\n\n    // Configuration\n    for (auto& type : sequence.get_tasks_per_types())\n        for (auto& t : type)\n        \x7b\n            t->set_stats(true);\n            t->set_debug(false);\n        \x7d\n\n    // 4. Execution\n    std::cout << \"Processing...\" << std::endl;\n    \n    // Export dot file for visualization\n    std::ofstream file(\"graph.dot\");\n    sequence.export_dot(file);\n\n    // Run the sequence\n    for (auto i = 0; i < 3; i++)\n        sequence.exec_seq(); // Run 1 frame at a time\n\n    // 5. Stats\n    std::cout << \"\\nEnd of execution.\" << std::endl;\n    tools::Stats::show(sequence.get_tasks_per_types(), true, false);\n\n    return 0;\n\x7d\n"

/-- Lines 457-500: the full generated `main.cpp` text. -/
def create_main_cpp (use_custom use_aff3ct : Bool) : String :=
  includes_str use_custom use_aff3ct ++
    (main_mid_1 ++
      (modules_str use_custom use_aff3ct ++
        ("\n" ++
          (sockets_bind use_custom use_aff3ct ++
            (main_mid_2 ++
              (first_task_code use_aff3ct ++ main_tail))))))

/-! Socket-binding statement texts, exactly as emitted (used to state the
wiring claims).  In the StreamPU chain the three default stages are
`initializer` (1), `incrementer` (2), `finalizer` (3); in the AFF3CT
chain the default stages are `source` (1), `encoder` (2), `decoder` (3),
`finalizer` (4). -/

/-- StreamPU chain: stage2 → custom (`incrementer` output into `my_module`). -/
def bind_incr_to_custom : String :=
  "incrementer[\"increment::out\"] = my_module  [\"process::in\"];"

/-- StreamPU chain: custom → stage3 (`my_module` output into `finalizer`). -/
def bind_custom_to_final : String :=
  "my_module  [\"process::out\"]   = finalizer  [\"finalize::in\"];"

/-- StreamPU chain: stage2 → stage3 directly (`incrementer` output into `finalizer`). -/
def bind_incr_to_final : String :=
  "incrementer[\"increment::out\"] = finalizer  [\"finalize::in\"];"

/-- AFF3CT chain: stage1 → custom (`source` output into `my_module`). -/
def bind_source_to_custom : String :=
  "source   [src::tsk::generate][(int)src::sck::generate::out_data] = my_module [\"process::in\"];"

/-- AFF3CT chain: custom → stage2 (`my_module` output into `encoder`). -/
def bind_custom_to_encoder : String :=
  "my_module[\"process::out\"]  = encoder   [enc::tsk::encode][(int)enc::sck::encode::U_K];"

/-- AFF3CT chain: stage2 → stage3 directly (`encoder` output into `decoder`);
common to both spacing variants of the emitted statement. -/
def bind_encoder_to_decoder : String :=
  "::X_N] = \n          decoder[dec::tsk::decode_hiho][(int)dec::sck::decode_hiho::Y_N];"

/-! ### `create_cmakelists` (create_project.py lines 225-355) -/

/-- The 60-character banner rule used by the generated CMakeLists
(`# ` + 60 equals signs in the source literal). -/
def banner60 : String :=
  "==============================" ++ "=============================="

/-- Lines 228-238: the opening f-string of the CMakeLists text. -/
def cmake_head (project_name streampu_path : String) : String :=
  "cmake_minimum_required(VERSION 3.10)\nproject(" ++ (project_name ++
    (" LANGUAGES CXX)\n\nset(CMAKE_CXX_STANDARD 11)\nset(CMAKE_CXX_STANDARD_REQUIRED ON)\n\n# " ++ banner60 ++ "\n# DEPENDENCIES\n# " ++ banner60 ++ "\nset(STREAMPU_ROOT \"" ++
      (streampu_path ++ "\" CACHE PATH \"Path to StreamPU\")\n")))

/-- Lines 244-247: the LOAD HULOTTE ENVIRONMENT banner. -/
def cmake_loadenv : String :=
  "# " ++ banner60 ++ "\n# LOAD HULOTTE ENVIRONMENT\n# " ++ banner60 ++ "\n"

/-- Lines 250-300: the AFF3CT dependency block (plain literal in the source). -/
def cmake_aff3ct_block : String :=
  "\n# Configure AFF3CT paths\nset(AFF3CT_INCLUDE_DIRS\n    $\x7bAFF3CT_ROOT\x7d/include\n    $\x7bAFF3CT_ROOT\x7d/src\n    $\x7bAFF3CT_ROOT\x7d/lib/MIPP/src\n    $\x7bAFF3CT_ROOT\x7d/lib/cli/src\n    $\x7bAFF3CT_ROOT\x7d/lib/date/include/date\n)\ninclude_directories($\x7bAFF3CT_INCLUDE_DIRS\x7d)\n\n# Find AFF3CT library\nfile(GLOB AFF3CT_LIBRARY \"$\x7bAFF3CT_ROOT\x7d/build/lib/libaff3ct*.a\")\n\nif(AFF3CT_LIBRARY)\n    message(STATUS \"Found AFF3CT: $\x7bAFF3CT_LIBRARY\x7d\")\n    \n    # When using AFF3CT, use the StreamPU headers/symbols bundled in AFF3CT\n    # to avoid Diamond Dependency / ABI mismatches.\n    set(STREAMPU_INCLUDE_DIRS\n        $\x7bAFF3CT_ROOT\x7d/lib/streampu/include\n        $\x7bAFF3CT_ROOT\x7d/lib/streampu/lib/rang/include\n        $\x7bAFF3CT_ROOT\x7d/lib/streampu/lib/json/include\n    )\n    include_directories($\x7bSTREAMPU_INCLUDE_DIRS\x7d)\n    \n    # Link ONLY AFF3CT (it contains StreamPU symbols)\n    set(HULOTTE_LIBS $\x7bAFF3CT_LIBRARY\x7d)\n    \n    add_definitions(-DHULOTTE_USE_AFF3CT)\n    add_definitions(-DAFF3CT_POLAR_BIT_PACKING)\n    add_definitions(-DAFF3CT_MULTI_PREC)\nelse()\n    message(WARNING \"AFF3CT library not found! Falling back to standalone StreamPU.\")\n    \n    # Standalone StreamPU\n    set(STREAMPU_INCLUDE_DIRS\n        $\x7bSTREAMPU_ROOT\x7d/include\n        $\x7bSTREAMPU_ROOT\x7d/src\n        $\x7bSTREAMPU_ROOT\x7d/lib/rang/include\n        $\x7bSTREAMPU_ROOT\x7d/lib/json/include\n    )\n    include_directories($\x7bSTREAMPU_INCLUDE_DIRS\x7d)\n    \n    if(EXISTS \"$\x7bSTREAMPU_ROOT\x7d/build/lib/libstreampu.a\")\n        set(HULOTTE_LIBS \"$\x7bSTREAMPU_ROOT\x7d/build/lib/libstreampu.a\")\n    else()\n        message(FATAL_ERROR \"libstreampu.a not found at $\x7bSTREAMPU_ROOT\x7d/build/lib/libstreampu.a\")\n    endif()\nendif()\n"

/-- Lines 303-319: the standalone-StreamPU dependency block. -/
def cmake_spu_block : String :=
  "\n# Configure StreamPU paths\nset(STREAMPU_INCLUDE_DIRS\n    $\x7bSTREAMPU_ROOT\x7d/include\n    $\x7bSTREAMPU_ROOT\x7d/src\n    $\x7bSTREAMPU_ROOT\x7d/lib/rang/include\n    $\x7bSTREAMPU_ROOT\x7d/lib/json/include\n)\ninclude_directories($\x7bSTREAMPU_INCLUDE_DIRS\x7d)\n\n# Find StreamPU library\nif(EXISTS \"$\x7bSTREAMPU_ROOT\x7d/build/lib/libstreampu.a\")\n    set(HULOTTE_LIBS \"$\x7bSTREAMPU_ROOT\x7d/build/lib/libstreampu.a\")\nelse()\n    message(FATAL_ERROR \"libstreampu.a not found at $\x7bSTREAMPU_ROOT\x7d/build/lib/libstreampu.a\")\nendif()\n"

/-- Lines 321-336: the cpptrace block and PROJECT SOURCES banner. -/
def cmake_cpptrace_block : String :=
  "\n# Find cpptrace (optional, for better error messages)\nfind_library(CPPTRACE_LIBRARY NAMES cpptrace libcpptrace.a\n    PATHS $\x7bSTREAMPU_ROOT\x7d/build/lib/cpptrace/lib)\n\nif(CPPTRACE_LIBRARY)\n    list(APPEND HULOTTE_LIBS $\x7bCPPTRACE_LIBRARY\x7d)\n    include_directories($\x7bSTREAMPU_ROOT\x7d/lib/cpptrace/include)\nendif()\n\nadd_definitions(-DHULOTTE_USE_STREAMPU)\n\n# " ++ banner60 ++ "\n# PROJECT SOURCES\n# " ++ banner60 ++ "\n"

/-- Lines 337-353: the project-sources section (custom-module or plain target). -/
def cmake_targets (project_name : String) (use_custom : Bool) : String :=
  if use_custom then
    "# Custom module\nadd_library(" ++ (project_name ++ ("_custom STATIC\n    src/custom/MyModule.cpp\n)\ntarget_include_directories(" ++ (project_name ++ ("_custom PUBLIC src)\ntarget_link_libraries(" ++ (project_name ++ ("_custom PUBLIC $\x7bHULOTTE_LIBS\x7d)\n\n# Main executable\nadd_executable(" ++ (project_name ++ (" src/main.cpp)\ntarget_link_libraries(" ++ (project_name ++ (" " ++ (project_name ++ "_custom)\n")))))))))))
  else
    "# Main executable\nadd_executable(" ++ (project_name ++ (" src/main.cpp)\ntarget_link_libraries(" ++ (project_name ++ " $\x7bHULOTTE_LIBS\x7d)\n")))

/-- Lines 225-355: the full generated `CMakeLists.txt` text.  `aff3ct_path` is
`Optional[str]` in the source (it is `None` when AFF3CT is disabled); it is
interpolated only in the `use_aff3ct` branch. -/
def create_cmakelists (project_name hulotte_path streampu_path : String)
    (aff3ct_path : Option String) (use_aff3ct use_custom : Bool) : String :=
  cmake_head project_name streampu_path ++
    ((if use_aff3ct then
        "set(AFF3CT_ROOT \"" ++ (pyOptStr aff3ct_path ++ "\" CACHE PATH \"Path to AFF3CT\")\n")
      else "") ++
      (("set(HULOTTE_ROOT \"" ++ (hulotte_path ++ "\" CACHE PATH \"Path to Hulotte\")\n\n")) ++
        (cmake_loadenv ++
          ((if use_aff3ct then cmake_aff3ct_block else cmake_spu_block) ++
            (cmake_cpptrace_block ++ cmake_targets project_name use_custom)))))

/-! ### `create_custom_module` (create_project.py lines 503-573) -/

/-- Lines 505-528: `MyModule.hpp`. -/
def custom_module_header : String :=
  "#pragma once\n#include <streampu.hpp>\n\nnamespace spu \x7b\nnamespace module \x7b\n\nclass MyModule : public Stateful\n\x7b\nprivate:\n    int n_elmts;\n\npublic:\n    MyModule(const int n_elmts);\n    virtual ~MyModule() = default;\n    \n    virtual MyModule* clone() const override;\n\nprotected:\n    void _process(const int* in, int* out, const int frame_id);\n\x7d;\n\n\x7d\n\x7d\n"

/-- Lines 530-571: `MyModule.cpp` (identity pass-through with clone/deep-copy). -/
def custom_module_impl : String :=
  "#include \"MyModule.hpp\"\n#include <algorithm>\n#include <iostream>\n\nusing namespace spu;\nusing namespace spu::module;\n\nMyModule::MyModule(const int n_elmts)\n: Stateful(), n_elmts(n_elmts)\n\x7b\n    const std::string name = \"MyModule\";\n    this->set_name(name);\n    this->set_short_name(name);\n\n    auto &t = this->create_task(\"process\");\n    auto p_in  = this->create_socket_in <int>(t, \"in\",  n_elmts);\n    auto p_out = this->create_socket_out<int>(t, \"out\", n_elmts);\n\n    this->create_codelet(t, [p_in, p_out](Module &m, runtime::Task &t, const size_t frame_id) -> int\n    \x7b\n        auto &mod = static_cast<MyModule&>(m);\n        mod._process(static_cast<int*>(t[p_in].get_dataptr()),\n                     static_cast<int*>(t[p_out].get_dataptr()),\n                     frame_id);\n        return runtime::status_t::SUCCESS;\n    \x7d);\n\x7d\n\nMyModule* MyModule::clone() const\n\x7b\n    auto m = new MyModule(*this);\n    m->deep_copy(*this);\n    return m;\n\x7d\n\nvoid MyModule::_process(const int* in, int* out, const int frame_id)\n\x7b\n    // Minimal example: copy input to output and print trace\n    // std::cout << \"MyModule processing frame \" << frame_id << std::endl;\n    std::copy(in, in + this->n_elmts, out);\n\x7d\n"

/-! ### Remaining generated artifacts (create_project.py lines 684-766) -/

/-- Lines 684-695: the generated `.gitignore`. -/
def gitignore_text : String :=
  "build/\n*.a\n*.o\n*.so\n*.dylib\n*.exe\n.DS_Store\ncmake-build-debug/\ncmake-build-release/\n.idea/\n.vscode/\n"

/-- Lines 701-726: the generated `build.sh`.  `aff3ct_dir` is interpolated
unconditionally, so a disabled AFF3CT yields the literal text `None`.  The
three `-D<NAME>_ROOT="<value>"` flag texts are kept as explicit sub-terms of
the concatenation (the assembled bytes are unchanged). -/
def build_script (project_name hulotte_dir streampu_dir : String)
    (aff3ct_dir : Option String) : String :=
  "#!/bin/bash\n# Build script for " ++ (project_name ++
    ("\n\nSCRIPT_DIR=\"$(cd \"$(dirname \"$\x7bBASH_SOURCE[0]\x7d\")\" && pwd)\"\nBUILD_DIR=\"$\x7bSCRIPT_DIR\x7d/build\"\n\nmkdir -p \"$\x7bBUILD_DIR\x7d\"\ncd \"$\x7bBUILD_DIR\x7d\"\n\ncmake .. \\\n    " ++
      (("-DSTREAMPU_ROOT=\"" ++ (streampu_dir ++ "\"")) ++
        (" \\\n    " ++
          (("-DAFF3CT_ROOT=\"" ++ (pyOptStr aff3ct_dir ++ "\"")) ++
            (" \\\n    " ++
              (("-DHULOTTE_ROOT=\"" ++ (hulotte_dir ++ "\"")) ++
                (" \\\n    -DCMAKE_BUILD_TYPE=Release\n\nmake -j$(nproc 2>/dev/null || sysctl -n hw.ncpu 2>/dev/null || echo 4)\n\nif [ $? -eq 0 ]; then\n    echo \"\"\n    echo \"Build successful!\"\n    echo \"Run: ./build/" ++
                  (project_name ++ "\"\nelse\n    echo \"Build failed\"\n    exit 1\nfi\n")))))))))

/-- Lines 734-766: the generated `README.md` (also interpolates `aff3ct_dir`
unconditionally). -/
def readme_text (project_name hulotte_dir streampu_dir : String)
    (aff3ct_dir : Option String) (use_aff3ct use_custom : Bool) : String :=
  "# " ++ (project_name ++
    ("\n\nGenerated by Hulotte framework.\n\n## Build\n\n```bash\n./build.sh\n```\n\nOr manually:\n\n```bash\nmkdir build && cd build\ncmake .. \\\n    -DSTREAMPU_ROOT=" ++
      (streampu_dir ++
        (" \\\n    -DAFF3CT_ROOT=" ++
          (pyOptStr aff3ct_dir ++
            (" \\\n    -DHULOTTE_ROOT=" ++
              (hulotte_dir ++
                ("\nmake -j\n```\n\n## Run\n\n```bash\n./build/" ++
                  (project_name ++
                    ("\n```\n\n## Features\n\n- StreamPU integration: ✓\n- AFF3CT support: " ++
                      ((if use_aff3ct then "✓" else "✗") ++
                        ("\n- Custom module: " ++
                          ((if use_custom then "✓" else "✗") ++ "\n")))))))))))))

/-! ### The resolved configuration and the artifact set it determines -/

/-- The fully resolved configuration consumed by the synthesis part of
`create_project` (lines 635-769): exactly the values fixed before any file
is written. -/
structure SynthConfig where
  project_name : String
  output_dir : String
  hulotte_dir : String
  streampu_dir : String
  aff3ct_dir : Option String
  use_aff3ct : Bool
  use_custom : Bool
  deriving DecidableEq, Repr

/-- The ordered artifact set written by `create_project` (lines 649-769):
(relative path, content, executable-bit) triples, in write order.  Only
`build.sh` receives `chmod 0o755` (line 730). -/
def artifacts (c : SynthConfig) : List (String × String × Bool) :=
  [("CMakeLists.txt",
    create_cmakelists c.project_name c.hulotte_dir c.streampu_dir c.aff3ct_dir
      c.use_aff3ct c.use_custom, false),
   ("src/main.cpp", create_main_cpp c.use_custom c.use_aff3ct, false)]
  ++ ((if c.use_custom then
        [("src/custom/MyModule.hpp", custom_module_header, false),
         ("src/custom/MyModule.cpp", custom_module_impl, false)]
      else [])
  ++ [(".gitignore", gitignore_text, false),
      ("build.sh",
       build_script c.project_name c.hulotte_dir c.streampu_dir c.aff3ct_dir, true),
      ("README.md",
       readme_text c.project_name c.hulotte_dir c.streampu_dir c.aff3ct_dir
         c.use_aff3ct c.use_custom, false)])

/-- The relative paths of the generated artifact set, in write order. -/
def artifact_paths (c : SynthConfig) : List String := (artifacts c).map (·.1)

/-- Directories created by `create_project` (lines 636-672), relative to the
project directory ("" is the project directory itself). -/
def synth_dirs (c : SynthConfig) : List String :=
  ["", "src"] ++ (if c.use_custom then ["src/custom"] else [])

/-! ### Argument handling and configuration resolution
(create_project.py lines 790-812 and 576-633) -/

/-- The parsed command line of `create_project.py` (lines 791-798). -/
structure CpArgs where
  name : Option String
  quiet : Bool
  aff3ct : Bool
  no_custom : Bool
  streampu_root : Option String
  aff3ct_root : Option String
  deriving DecidableEq, Repr

/-- Python truthiness of an `Optional[str]` (`None` and `""` are falsy). -/
def opt_truthy : Option String → Bool
  | some s => !(s == "")
  | none => false

/-- Line 801: `use_custom = False if args.no_custom else (True if args.name else None)`. -/
def use_custom_arg (a : CpArgs) : Option Bool :=
  if a.no_custom then some false
  else if opt_truthy a.name then some true
  else none

/-- Line 802: `use_aff3ct = True if args.aff3ct else (False if args.name else None)`. -/
def use_aff3ct_arg (a : CpArgs) : Option Bool :=
  if a.aff3ct then some true
  else if opt_truthy a.name then some false
  else none

/-- The input-gathering phase of `create_project` (lines 585-633) combined
with the `__main__` argument derivation (lines 800-812): resolves the full
`SynthConfig` before any file is written.  `cwd` models `Path.cwd()`
(line 614).  The interactive output-directory prompt at line 610 is dead
code in the source (`project_name` was re-assigned at line 587 and is never
`None` there), so `output_dir` is always `"."`. -/
def resolve_config (a : CpArgs) (fs : String → Bool) (cwd : String)
    (inputs : List String) : Option (SynthConfig × List String × List Msg) :=
  match (match a.name with
         | some n => some (n, inputs, ([] : List Msg))
         | none => ask_name "Project name:" (some "my_spu_project") inputs) with
  | none => none
  | some (project_name, i1, m1) =>
    match (if opt_truthy a.streampu_root then
             some (a.streampu_root.getD "", i1, ([] : List Msg))
           else ask_streampu_root fs i1.length none i1) with
    | none => none
    | some (streampu_dir, i2, m2) =>
      match (match use_aff3ct_arg a with
             | some b => some (b, i2, ([] : List Msg))
             | none => ask_yes_no "Use AFF3CT?" false i2) with
      | none => none
      | some (use_aff3ct, i3, m3) =>
        match (if use_aff3ct then
                 (if opt_truthy a.aff3ct_root then
                    some (some (a.aff3ct_root.getD ""), i3, ([] : List Msg))
                  else
                    match ask_aff3ct_root fs i3.length none i3 with
                    | none => none
                    | some (d, i, m) => some (some d, i, m))
               else some (none, i3, ([] : List Msg))) with
        | none => none
        | some (aff3ct_dir, i4, m4) =>
          match (match use_custom_arg a with
                 | some b => some (b, i4, ([] : List Msg))
                 | none => ask_yes_no "Add custom module?" true i4) with
          | none => none
          | some (use_custom, i5, m5) =>
            some (⟨project_name, ".", cwd, streampu_dir, aff3ct_dir, use_aff3ct, use_custom⟩,
                  i5, m1 ++ (m2 ++ (m3 ++ (m4 ++ m5))))

end CreateProject

namespace InstallDeps

/-! ### `install_dependencies.py`

The environment of one installer run: success of each external command
(keyed by the exact command string), the result of remote tag discovery,
presence of toolchain binaries, the relevant filesystem facts probed by
the script, the detected CPU count, and the outcome of the Surfer
download (whose wget/curl/unzip internals decide no claim and are
abstracted by `surfer_result`). -/
structure InstEnv where
  run : String → Bool
  latest_aff3ct : Option String
  latest_streampu : Option String
  git_ok : Bool
  cmake_ok : Bool
  gpp_ok : Bool
  venv_ok : Bool
  aff3ct_dir_exists : Bool
  streampu_dir_exists : Bool
  aff3ct_canonical_lib : Bool
  aff3ct_glob_libs : List String
  aff3ct_bundled_spu : Bool
  streampu_canonical_lib : Bool
  cpu : Option Nat
  surfer_result : Option String

/-- Result of `install_aff3ct` (the dict built at lines 250-261); `spu` holds
the optional bundled-StreamPU root and library paths. -/
structure Aff3ctInfo where
  aff3ct_root : String
  aff3ct_lib : String
  spu : Option (String × String)
  deriving DecidableEq, Repr

/-- Result of `install_streampu` (the dict built at lines 333-336). -/
structure StreampuInfo where
  streampu_root : String
  streampu_lib : String
  deriving DecidableEq, Repr

/-- Lines 49-67: the installer's `ask_yes_no` (also accepts `oui`/`o`/`non`). -/
def ask_yes_no (question : String) (dflt : Bool) :
    List String → Option (Bool × List String × List Msg)
  | [] => none
  | r :: rest =>
    let prompt := question ++ (" [" ++ ((if dflt then "Y/n" else "y/N") ++ "]: "))
    let resp := py_lower (py_strip r)
    if resp == "" then some (dflt, rest, [.ask prompt])
    else if resp == "y" || (resp == "yes" || (resp == "oui" || resp == "o")) then
      some (true, rest, [.ask prompt])
    else if resp == "n" || (resp == "no" || resp == "non") then
      some (false, rest, [.ask prompt])
    else
      match ask_yes_no question dflt rest with
      | none => none
      | some (b, rem, ms) =>
        some (b, rem, .ask prompt :: (.warn "Please answer 'y' or 'n'" :: ms))

/-- A bare `input(q).strip()` call. -/
def read_line (q : String) : List String → Option (String × List String × List Msg)
  | [] => none
  | r :: rest => some (py_strip r, rest, [.ask q])

/-- Lines 70-75: `get_cpu_cores` returns `str(os.cpu_count())`.  Python's
`os.cpu_count()` returns `None` (without raising) when detection fails, and
`str(None)` is the string `"None"`, so the `except` branch returning `"4"`
is unreachable for that failure mode. -/
def get_cpu_cores (cpu : Option Nat) : String :=
  match cpu with
  | some n => toString n
  | none => "None"

/-- The `make -j{cores}` compile command of lines 226 and 319. -/
def make_cmd (cpu : Option Nat) : String := "make -j" ++ get_cpu_cores cpu

/-- Lines 20-46: `run_command` prints `Command failed: {cmd}` on failure;
success is decided by the `env.run` oracle on the exact command string. -/
def run_command (env : InstEnv) (cmd : String) : Bool × List Msg :=
  if env.run cmd then (true, []) else (false, [.err ("Command failed: " ++ cmd)])

/-- Lines 99-115: `choose_version` (`get_latest_tag`, lines 78-96, is
abstracted by the `latest` oracle value; its cosmetic could-not-fetch
warning decides no claim). -/
def choose_version (latest : Option String) (repo_name : String)
    (inputs : List String) : Option (Option String × List String × List Msg) :=
  match latest with
  | some t =>
    let m0 : List Msg := [.info ("Latest " ++ (repo_name ++ (" version: " ++ t)))]
    match ask_yes_no ("Use " ++ (t ++ "?")) true inputs with
    | none => none
    | some (b, i1, m1) =>
      if b then some (some t, i1, m0 ++ m1)
      else
        match read_line ("Enter " ++ (repo_name ++ " tag/branch (or empty for default): ")) i1 with
        | none => none
        | some (custom, i2, m2) =>
          some ((if custom == "" then some t else some custom), i2, m0 ++ (m1 ++ m2))
  | none =>
    let m0 : List Msg :=
      [.warn ("Could not determine latest " ++ (repo_name ++ " version, using default"))]
    match read_line ("Enter " ++ (repo_name ++ " tag/branch (or empty for main/master): ")) inputs with
    | none => none
    | some (custom, i1, m1) =>
      some ((if custom == "" then none else some custom), i1, m0 ++ m1)

/-- Line 188-190: the recursive clone command for AFF3CT. -/
def aff3ct_clone_cmd (tag : Option String) : String :=
  "git clone --recursive https://github.com/aff3ct/aff3ct.git" ++
    (match tag with | some t => " --branch " ++ t | none => "")

/-- Lines 204-213: the AFF3CT configure command (note the trailing space). -/
def aff3ct_cmake_cmd : String :=
  "cmake .. -DCMAKE_BUILD_TYPE=Release -DAFF3CT_COMPILE_EXE=OFF -DAFF3CT_COMPILE_STATIC_LIB=ON -DAFF3CT_COMPILE_SHARED_LIB=OFF -DAFF3CT_LINK_HWLOC=OFF -DAFF3CT_EXT_STRINGS=ON -DSPU_COMPILE_STATIC_LIB=ON "

/-- Lines 286-288: the recursive clone command for StreamPU. -/
def streampu_clone_cmd (tag : Option String) : String :=
  "git clone --recursive https://github.com/aff3ct/streampu.git" ++
    (match tag with | some t => " --branch " ++ t | none => "")

/-- Lines 301-307: the StreamPU configure command (note the trailing space). -/
def streampu_cmake_cmd : String :=
  "cmake .. -DCMAKE_BUILD_TYPE=Release -DSPU_COMPILE_STATIC_LIB=ON -DSPU_COMPILE_SHARED_LIB=OFF -DSPU_LINK_HWLOC=OFF "

/-- Lines 166-261: `install_aff3ct`.  Returns the installation result
(`none` both for an operator skip at the target check and for any stage
failure, exactly as the Python function returns `None` in both cases),
the remaining inputs, and the messages.  The outer `Option` models
`EOFError`. -/
def install_aff3ct (env : InstEnv) (hulotte_root : String) (inputs : List String) :
    Option (Option Aff3ctInfo × List String × List Msg) :=
  let m0 : List Msg := [.plain "Installing AFF3CT with StreamPU"]
  match choose_version env.latest_aff3ct "AFF3CT" inputs with
  | none => none
  | some (tag, i1, m1) =>
    let aff3ct_dir := hulotte_root ++ "/aff3ct"
    match (if env.aff3ct_dir_exists then
             let m2 : List Msg := [.warn ("AFF3CT directory already exists: " ++ aff3ct_dir)]
             match ask_yes_no "Do you want to delete and reinstall?" false i1 with
             | none => none
             | some (b, i2, m3) =>
               if !b then
                 some (true, i2, m2 ++ (m3 ++ [Msg.info "Skipping AFF3CT installation"]))
               else
                 let rm := run_command env ("rm -rf " ++ aff3ct_dir)
                 some (false, i2, m2 ++ (m3 ++ ([Msg.info "Removing existing AFF3CT directory..."] ++ rm.2)))
           else some (false, i1, ([] : List Msg))) with
    | none => none
    | some (skipped, i3, m4) =>
      if skipped then some (none, i3, m0 ++ (m1 ++ m4))
      else
        let mClone : List Msg := [.info "Cloning AFF3CT repository..."]
        let clone := run_command env (aff3ct_clone_cmd tag)
        if !clone.1 then
          some (none, i3, m0 ++ (m1 ++ (m4 ++ (mClone ++ (clone.2 ++ [Msg.err "Failed to clone AFF3CT"])))))
        else
          let mCfg : List Msg :=
            [.ok "AFF3CT cloned successfully", .info "Configuring AFF3CT with CMake..."]
          let cfg := run_command env aff3ct_cmake_cmd
          if !cfg.1 then
            some (none, i3, m0 ++ (m1 ++ (m4 ++ (mClone ++ (mCfg ++ (cfg.2 ++ [Msg.err "CMake configuration failed"]))))))
          else
            let cores := get_cpu_cores env.cpu
            let mMake : List Msg :=
              [.ok "CMake configuration successful",
               .info ("Compiling AFF3CT (using " ++ (cores ++ " cores)...")),
               .info "This may take several minutes..."]
            let mk := run_command env (make_cmd env.cpu)
            if !mk.1 then
              some (none, i3, m0 ++ (m1 ++ (m4 ++ (mClone ++ (mCfg ++ (mMake ++ (mk.2 ++ [Msg.err "AFF3CT compilation failed"])))))))
            else
              let mDone : List Msg := [.ok "AFF3CT compiled successfully"]
              match (if env.aff3ct_canonical_lib then
                       some ("libaff3ct-4.1.0.a",
                             [Msg.ok "AFF3CT library found: libaff3ct-4.1.0.a"])
                     else
                       match env.aff3ct_glob_libs with
                       | [] => none
                       | f :: _ => some (f, [Msg.ok ("AFF3CT library found: " ++ f)])) with
              | none =>
                some (none, i3, m0 ++ (m1 ++ (m4 ++ (mClone ++ (mCfg ++ (mMake ++ (mDone ++ [Msg.err "AFF3CT library not found after compilation"])))))))
              | some (lib_name, mLib) =>
                let info : Aff3ctInfo :=
                  if env.aff3ct_bundled_spu then
                    ⟨aff3ct_dir, aff3ct_dir ++ ("/build/lib/" ++ lib_name),
                     some (aff3ct_dir ++ "/lib/streampu",
                           aff3ct_dir ++ "/build/lib/streampu/lib/libstreampu.a")⟩
                  else
                    ⟨aff3ct_dir, aff3ct_dir ++ ("/build/lib/" ++ lib_name), none⟩
                let mSpu : List Msg :=
                  if env.aff3ct_bundled_spu then
                    [.ok "StreamPU library found (compiled with AFF3CT)"]
                  else
                    [.warn "StreamPU library not found in AFF3CT build"]
                some (some info, i3, m0 ++ (m1 ++ (m4 ++ (mClone ++ (mCfg ++ (mMake ++ (mDone ++ (mLib ++ mSpu))))))))

/-- Lines 264-336: `install_streampu`.  The verify stage has no glob
fallback: a missing `build/lib/libstreampu.a` is immediately fatal. -/
def install_streampu (env : InstEnv) (hulotte_root : String) (inputs : List String) :
    Option (Option StreampuInfo × List String × List Msg) :=
  let m0 : List Msg := [.plain "Installing StreamPU (standalone)"]
  match choose_version env.latest_streampu "StreamPU" inputs with
  | none => none
  | some (tag, i1, m1) =>
    let streampu_dir := hulotte_root ++ "/streampu"
    match (if env.streampu_dir_exists then
             let m2 : List Msg := [.warn ("StreamPU directory already exists: " ++ streampu_dir)]
             match ask_yes_no "Do you want to delete and reinstall?" false i1 with
             | none => none
             | some (b, i2, m3) =>
               if !b then
                 some (true, i2, m2 ++ (m3 ++ [Msg.info "Skipping StreamPU installation"]))
               else
                 let rm := run_command env ("rm -rf " ++ streampu_dir)
                 some (false, i2, m2 ++ (m3 ++ ([Msg.info "Removing existing StreamPU directory..."] ++ rm.2)))
           else some (false, i1, ([] : List Msg))) with
    | none => none
    | some (skipped, i3, m4) =>
      if skipped then some (none, i3, m0 ++ (m1 ++ m4))
      else
        let mClone : List Msg := [.info "Cloning StreamPU repository..."]
        let clone := run_command env (streampu_clone_cmd tag)
        if !clone.1 then
          some (none, i3, m0 ++ (m1 ++ (m4 ++ (mClone ++ (clone.2 ++ [Msg.err "Failed to clone StreamPU"])))))
        else
          let mCfg : List Msg :=
            [.ok "StreamPU cloned successfully", .info "Configuring StreamPU with CMake..."]
          let cfg := run_command env streampu_cmake_cmd
          if !cfg.1 then
            some (none, i3, m0 ++ (m1 ++ (m4 ++ (mClone ++ (mCfg ++ (cfg.2 ++ [Msg.err "CMake configuration failed"]))))))
          else
            let cores := get_cpu_cores env.cpu
            let mMake : List Msg :=
              [.ok "CMake configuration successful",
               .info ("Compiling StreamPU (using " ++ (cores ++ " cores)..."))]
            let mk := run_command env (make_cmd env.cpu)
            if !mk.1 then
              some (none, i3, m0 ++ (m1 ++ (m4 ++ (mClone ++ (mCfg ++ (mMake ++ (mk.2 ++ [Msg.err "StreamPU compilation failed"])))))))
            else
              let lib_file := streampu_dir ++ "/build/lib/libstreampu.a"
              if !env.streampu_canonical_lib then
                some (none, i3, m0 ++ (m1 ++ (m4 ++ (mClone ++ (mCfg ++ (mMake ++ ([Msg.ok "StreamPU compiled successfully"] ++ [Msg.err "StreamPU library not found after compilation"])))))))
              else
                some (some ⟨streampu_dir, lib_file⟩, i3,
                      m0 ++ (m1 ++ (m4 ++ (mClone ++ (mCfg ++ (mMake ++ ([Msg.ok "StreamPU compiled successfully"] ++ [Msg.ok ("StreamPU library found: " ++ lib_file)])))))))

/-- Lines 339-410: `install_surfer`.  The download/unzip internals decide no
claim and are abstracted by `env.surfer_result`; no prompt occurs inside
the function. -/
def install_surfer (env : InstEnv) (hulotte_root : String) :
    Option String × List Msg :=
  match env.surfer_result with
  | some p =>
    (some p,
     [.plain "Installing Surfer (Waveform Viewer)", .info "Downloading Surfer v0.3.0...",
      .info "Extracting Surfer...", .ok ("Surfer downloaded to " ++ p),
      .info "Consider adding this directory to your PATH:",
      .info ("  export PATH=$PATH:" ++ (hulotte_root ++ "/tools"))])
  | none =>
    (none, [.plain "Installing Surfer (Waveform Viewer)", .err "Error installing Surfer"])

/-- Lines 449-493: `setup_python_environment`, abstracted by `env.venv_ok`
(venv creation and pip internals decide no claim; no prompt occurs inside
the function). -/
def setup_python_environment (env : InstEnv) (hulotte_root : String) :
    Option String × List Msg :=
  if env.venv_ok then
    (some (hulotte_root ++ "/.venv"),
     [.plain "Setting up Python Environment",
      .ok "Python dependencies installed successfully"])
  else
    (none,
     [.plain "Setting up Python Environment",
      .err "Failed to create virtual environment"])

/-- Lines 414-445: messages of `create_install_info` (the file write itself
is outside the message model). -/
def install_info_msgs (hulotte_root : String) (aff3ct_info : Option Aff3ctInfo)
    (streampu_info : Option StreampuInfo) (surfer_path : Option String) : List Msg :=
  if aff3ct_info.isSome || (streampu_info.isSome || surfer_path.isSome) then
    [.ok ("Installation info saved to: " ++ (hulotte_root ++ "/INSTALL_INFO.txt"))]
  else []

/-- Lines 566-590: the final summary prints of `main` (the closing
next-steps lines are summarised by one `plain` message). -/
def final_summary_msgs (aff3ct_info : Option Aff3ctInfo)
    (streampu_info : Option StreampuInfo) (surfer_path : Option String) : List Msg :=
  [.plain "Installation Complete"] ++
  ((match aff3ct_info with
    | some info =>
      [Msg.ok ("AFF3CT installed at: " ++ info.aff3ct_root)] ++
        (match info.spu with
         | some (sr, _) => [Msg.ok ("StreamPU (with AFF3CT) at: " ++ sr)]
         | none => [])
    | none => []) ++
  ((match streampu_info with
    | some info => [Msg.ok ("StreamPU (standalone) installed at: " ++ info.streampu_root)]
    | none => []) ++
  ((match surfer_path with
    | some p => [Msg.ok ("Surfer installed at: " ++ p)]
    | none => []) ++
  [Msg.plain "Next steps"])))

/-- Lines 118-163: the three prerequisite probes (`check_git`, `check_cmake`,
`check_compiler`): messages of one probe, by outcome. -/
def check_msgs (name hint : String) (found : Bool) : List Msg :=
  if found then
    [.info ("Checking for " ++ (name ++ "...")), .ok (name ++ " found")]
  else
    [.info ("Checking for " ++ (name ++ "...")), .err (name ++ " is not installed!"),
     .info ("Please install " ++ hint)]

/-- Lines 519-524 of `main`: the Python-environment step — on a setup
failure the run continues only when the operator answers yes to
"Continue anyway?". -/
def venv_step (env : InstEnv) (hulotte_root : String) (inputs : List String) :
    Option (Bool × List String × List Msg) :=
  let venv := setup_python_environment env hulotte_root
  if venv.1.isNone then
    match ask_yes_no "Continue anyway?" false inputs with
    | none => none
    | some (b, i, m) =>
      some (b, i, venv.2 ++ ([Msg.err "Python environment setup failed"] ++ m))
  else some (true, inputs, venv.2)

/-- Lines 526-533 of `main`: the AFF3CT step — ask whether to install; on a
`None` result (skip or failure alike) report "AFF3CT installation failed"
and continue only when the operator answers yes to "Continue anyway?".
Returns the install result, the continue flag, the remaining inputs and the
messages. -/
def aff3ct_step (env : InstEnv) (hulotte_root : String) (inputs : List String) :
    Option (Option Aff3ctInfo × Bool × List String × List Msg) :=
  match ask_yes_no "\nDo you want to install AFF3CT (with StreamPU)?" true inputs with
  | none => none
  | some (wantAff, i1, mAskA) =>
    if wantAff then
      match install_aff3ct env hulotte_root i1 with
      | none => none
      | some (affOpt, i2, mA) =>
        match affOpt with
        | some info => some (some info, true, i2, mAskA ++ mA)
        | none =>
          match ask_yes_no "Continue anyway?" false i2 with
          | none => none
          | some (b, i3, mC) =>
            some (none, b, i3,
              mAskA ++ (mA ++ ([Msg.err "AFF3CT installation failed"] ++ mC)))
    else some (none, true, i1, mAskA)

/-- Lines 535-550 of `main`: decide whether to install standalone StreamPU. -/
def streampu_decide_step (aff3ct_info : Option Aff3ctInfo) (inputs : List String) :
    Option (Bool × List String × List Msg) :=
  match aff3ct_info with
  | some info =>
    if info.spu.isSome then
      match ask_yes_no "Do you still want to install StreamPU standalone?" false inputs with
      | none => none
      | some (b, i, m) =>
        some (b, i, [Msg.info "\nStreamPU was already installed as part of AFF3CT"] ++ m)
    else ask_yes_no "\nDo you want to install StreamPU (standalone)?" true inputs
  | none => ask_yes_no "\nDo you want to install StreamPU (standalone)?" true inputs

/-- Lines 552-555 of `main`: the standalone-StreamPU step — on a `None`
result it reports "StreamPU installation failed" and the run proceeds
unconditionally (no continue prompt exists in this branch of the source). -/
def streampu_step (env : InstEnv) (hulotte_root : String) (want : Bool)
    (inputs : List String) : Option (Option StreampuInfo × List String × List Msg) :=
  if want then
    match install_streampu env hulotte_root inputs with
    | none => none
    | some (spuOpt, i, mS) =>
      match spuOpt with
      | some info => some (some info, i, mS)
      | none => some (none, i, mS ++ [Msg.err "StreamPU installation failed"])
  else some (none, inputs, ([] : List Msg))

/-- Lines 496-592: `main` of `install_dependencies.py` (ASCII art and the
optional hoot are cosmetic and elided; the final next-steps prints are
summarised by one `plain` message).  Returns the exit code and the full
ordered message log; `none` models an uncaught `EOFError`. -/
def install_main (env : InstEnv) (hulotte_root : String) (inputs : List String) :
    Option (Nat × List Msg) :=
  let mHead : List Msg :=
    [.plain "Hulotte Dependencies Installer",
     .info ("Hulotte root: " ++ hulotte_root),
     .plain "Checking Prerequisites"]
  let mGit := check_msgs "git" "git: sudo apt-get install git" env.git_ok
  if !env.git_ok then some (1, mHead ++ mGit)
  else
    let mCmake := check_msgs "cmake" "cmake: sudo apt-get install cmake" env.cmake_ok
    if !env.cmake_ok then some (1, mHead ++ (mGit ++ mCmake))
    else
      let mGpp := check_msgs "g++" "g++: sudo apt-get install build-essential" env.gpp_ok
      if !env.gpp_ok then some (1, mHead ++ (mGit ++ (mCmake ++ mGpp)))
      else
        let mPre : List Msg := [.ok "All prerequisites satisfied"]
        match venv_step env hulotte_root inputs with
        | none => none
        | some (goOn, i0, mVenv) =>
          if !goOn then some (1, mHead ++ (mGit ++ (mCmake ++ (mGpp ++ (mPre ++ mVenv)))))
          else
            let mSoFar := mHead ++ (mGit ++ (mCmake ++ (mGpp ++ (mPre ++ mVenv))))
            match aff3ct_step env hulotte_root i0 with
            | none => none
            | some (aff3ct_info, affGoOn, i4, mAff) =>
              if !affGoOn then some (1, mSoFar ++ mAff)
              else
                match streampu_decide_step aff3ct_info i4 with
                | none => none
                | some (wantSpu, i6, mAskS) =>
                  match streampu_step env hulotte_root wantSpu i6 with
                  | none => none
                  | some (streampu_info, i8, mSpu) =>
                    match ask_yes_no "\nDo you want to install Surfer (Waveform Viewer)?" true i8 with
                    | none => none
                    | some (wantSurfer, _i9, mAskSf) =>
                      let surfer := if wantSurfer then install_surfer env hulotte_root
                                    else (none, ([] : List Msg))
                      let mInfoFile := install_info_msgs hulotte_root aff3ct_info streampu_info surfer.1
                      let mSummary := final_summary_msgs aff3ct_info streampu_info surfer.1
                      some (0, mSoFar ++ (mAff ++ (mAskS ++ (mSpu ++ (mAskSf ++ (surfer.2 ++ (mInfoFile ++ mSummary)))))))

/-- Lines 595-609: the `__main__` wrapper.  Any uncaught exception (the
`EOFError` of an exhausted input stream included) is caught and turned
into exit code 1. -/
def main_exit (env : InstEnv) (hulotte_root : String) (inputs : List String) : Nat :=
  match install_main env hulotte_root inputs with
  | some (c, _) => c
  | none => 1

/-- The message log of a completed `install_main` run (empty if the run died
on an exception). -/
def main_log (env : InstEnv) (hulotte_root : String) (inputs : List String) : List Msg :=
  match install_main env hulotte_root inputs with
  | some (_, l) => l
  | none => []

/-- A fully healthy environment used by the concrete runs below. -/
def sample_env : InstEnv where
  run := fun _ => true
  latest_aff3ct := some "v3.0.2"
  latest_streampu := some "v1.1.0"
  git_ok := true
  cmake_ok := true
  gpp_ok := true
  venv_ok := true
  aff3ct_dir_exists := false
  streampu_dir_exists := false
  aff3ct_canonical_lib := true
  aff3ct_glob_libs := []
  aff3ct_bundled_spu := true
  streampu_canonical_lib := true
  cpu := some 8
  surfer_result := some "/opt/hulotte/tools/surfer"

/-- The environment of `sample_env` with the AFF3CT target directory already
present (the target-check branch of `install_aff3ct`). -/
def env_skip : InstEnv := { sample_env with aff3ct_dir_exists := true }

/-- The environment of `sample_env` in which exactly the StreamPU clone
command fails. -/
def env_spu_fail : InstEnv :=
  { sample_env with run := fun c => !(c == streampu_clone_cmd (some "v1.1.0")) }

/-- The environment of `sample_env` with the canonical AFF3CT library absent
and two files matching the `libaff3ct-*.a` glob. -/
def env_glob2 : InstEnv :=
  { sample_env with
      aff3ct_canonical_lib := false
      aff3ct_glob_libs := ["libaff3ct-3.0.2.a", "libaff3ct-2.0.0.a"] }

/-- The environment of `sample_env` with the canonical standalone StreamPU
library absent after a successful build. -/
def env_spu_noverify : InstEnv := { sample_env with streampu_canonical_lib := false }

/-- The library path reported by a completed, non-skipped `install_aff3ct`
run (`none` if the run was skipped, failed, or died on `EOFError`). -/
def aff3ct_result_lib (env : InstEnv) (hr : String) (inputs : List String) : Option String :=
  match install_aff3ct env hr inputs with
  | some (some info, _, _) => some info.aff3ct_lib
  | _ => none

/-- The messages of a completed `install_aff3ct` run. -/
def aff3ct_result_msgs (env : InstEnv) (hr : String) (inputs : List String) : List Msg :=
  match install_aff3ct env hr inputs with
  | some (_, _, ms) => ms
  | none => []

/-- Whether a completed `install_streampu` run produced an installation. -/
def streampu_result_ok (env : InstEnv) (hr : String) (inputs : List String) : Bool :=
  match install_streampu env hr inputs with
  | some (some _, _, _) => true
  | _ => false

/-- The messages of a completed `install_streampu` run. -/
def streampu_result_msgs (env : InstEnv) (hr : String) (inputs : List String) : List Msg :=
  match install_streampu env hr inputs with
  | some (_, _, ms) => ms
  | none => []

/-- Benignity of one console message with respect to the two failure reports
of `main` (lines 531 and 554): everything except exactly those two error
messages. -/
def benignB (m : Msg) : Bool :=
  match m with
  | .err t => !(t == "AFF3CT installation failed" || t == "StreamPU installation failed")
  | _ => true

end InstallDeps

/-! ## Theorems -/

/-! ### The substring scan -/

theorem listOccursSimple_iff_infix (pat s : List Char) :
    listOccursSimple pat s = true ↔ pat <:+: s := by
  induction s with
  | nil => simp [listOccursSimple, List.isEmpty_iff, List.infix_nil]
  | cons c t ih =>
    simp [listOccursSimple, Bool.or_eq_true, List.isPrefixOf_iff_prefix, ih,
      List.infix_cons_iff]

theorem listOccurs_eq_simple (pat : List Char) :
    ∀ (n : Nat) (s : List Char), s.length ≤ n →
      listOccurs pat s = listOccursSimple pat s := by
  intro n
  induction n with
  | zero =>
    intro s hs
    rcases s with _ | ⟨a, t⟩
    · rfl
    · simp at hs
  | succ n ih =>
    intro s hs
    rcases s with _ | ⟨a, _ | ⟨b, _ | ⟨c, _ | ⟨d, t⟩⟩⟩⟩
    · rfl
    · rfl
    · rfl
    · rfl
    · have ht : t.length ≤ n := by simp [List.length_cons] at hs; omega
      simp [listOccurs, listOccursSimple, ih t ht, Bool.or_assoc]

theorem strOccurs_iff_infix (pat s : String) :
    strOccurs pat s = true ↔ pat.data <:+: s.data := by
  rw [strOccurs, listOccurs_eq_simple pat.data s.data.length s.data le_rfl,
    listOccursSimple_iff_infix]

theorem strOccurs_of_infix {pat s : String} (h : pat.data <:+: s.data) :
    strOccurs pat s = true :=
  ( strOccurs_iff_infix pat s).mpr h

theorem strOccurs_head (p r : String) : strOccurs p (p ++ r) = true := by
  apply strOccurs_of_infix
  exact ⟨[], r.data, by simp [String.data_append]⟩

theorem strOccurs_append_right (a : String) {p b : String}
    (hb : strOccurs p b = true) : strOccurs p (a ++ b) = true := by
  apply strOccurs_of_infix
  obtain ⟨t, u, ht⟩ := ( strOccurs_iff_infix p b).mp hb
  exact ⟨a.data ++ t, u, by rw [String.data_append, ← ht]; simp [List.append_assoc]⟩

open CreateProject in
/-- C1 (amended).  In the generated entry-point source: when
`use_library_b = false` (the three-stage StreamPU chain) the custom stage is
wired between the second and third default stages exactly when
`use_custom_module` is set, the direct stage2→stage3 socket binding is
present exactly when it is not set, and never both; when
`use_library_b = true` (the four-stage AFF3CT chain) the custom stage is
instead inserted between the first and second stages (source→custom→encoder)
exactly when `use_custom_module` is set, the second and third stages
(encoder→decoder) are always connected directly, and no binding routes the
second stage through the custom stage. -/
theorem c1_wiring_amended : ∀ use_custom : Bool,
    (strOccurs bind_incr_to_custom (create_main_cpp use_custom false) = use_custom) ∧
    (strOccurs bind_custom_to_final (create_main_cpp use_custom false) = use_custom) ∧
    (strOccurs bind_incr_to_final (create_main_cpp use_custom false) = !use_custom) ∧
    (strOccurs bind_source_to_custom (create_main_cpp use_custom true) = use_custom) ∧
    (strOccurs bind_custom_to_encoder (create_main_cpp use_custom true) = use_custom) ∧
    (strOccurs bind_encoder_to_decoder (create_main_cpp use_custom true) = true) ∧
    (strOccurs bind_incr_to_custom (create_main_cpp use_custom true) = false) ∧
    (strOccurs bind_custom_to_final (create_main_cpp use_custom true) = false) := by
  intro use_custom
  cases use_custom <;>
    exact ⟨by decide, by decide, by decide, by decide, by decide, by decide,
           by decide, by decide⟩

open CreateProject in
/-- C1 (counterexample).  With `use_custom_module = true` and
`use_library_b = true` the generated entry-point source contains no
stage2→custom or custom→stage3 binding at all: the second and third default
stages are still bound directly (encoder→decoder), and the custom stage is
spliced between the first and second stages instead
(source→custom→encoder) — refuting the claimed stage2→custom→stage3 wiring
"for every combination of the other toggles (including use_library_b =
true)". -/
theorem c1_wiring_counterexample :
    (strOccurs bind_incr_to_custom (create_main_cpp true true) = false) ∧
    (strOccurs bind_custom_to_final (create_main_cpp true true) = false) ∧
    (strOccurs bind_encoder_to_decoder (create_main_cpp true true) = true) ∧
    (strOccurs bind_source_to_custom (create_main_cpp true true) = true) ∧
    (strOccurs bind_custom_to_encoder (create_main_cpp true true) = true) := by
  exact ⟨by decide, by decide, by decide, by decide, by decide⟩

open CreateProject in
/-- C2 (confirmed).  The generated artifact set — the ordered list of
(relative path, content, executable-bit) triples together with the created
directories — is a pure function of the resolved configuration: two runs
from configurations that agree on every field produce byte-identical
artifact sets.  (The absolute paths from the configuration are embedded
verbatim in the contents, so equality of those fields is required exactly
as the claim's exclusion says.) -/
theorem c2_determinism (c₁ c₂ : SynthConfig)
    (h1 : c₁.project_name = c₂.project_name)
    (h2 : c₁.output_dir = c₂.output_dir)
    (h3 : c₁.hulotte_dir = c₂.hulotte_dir)
    (h4 : c₁.streampu_dir = c₂.streampu_dir)
    (h5 : c₁.aff3ct_dir = c₂.aff3ct_dir)
    (h6 : c₁.use_aff3ct = c₂.use_aff3ct)
    (h7 : c₁.use_custom = c₂.use_custom) :
    artifacts c₁ = artifacts c₂ ∧ synth_dirs c₁ = synth_dirs c₂ := by
  have : c₁ = c₂ := by
    cases c₁; cases c₂
    simp_all
  rw [this]
  exact ⟨rfl, rfl⟩

open CreateProject in
/-- C2 (witness). -/
theorem c2_determinism_witness :
    artifacts ⟨"demo", ".", "/opt/hulotte", "/opt/spu", none, false, true⟩ =
      artifacts ⟨"demo", ".", "/opt/hulotte", "/opt/spu", none, false, true⟩ ∧
    synth_dirs ⟨"demo", ".", "/opt/hulotte", "/opt/spu", none, false, true⟩ =
      synth_dirs ⟨"demo", ".", "/opt/hulotte", "/opt/spu", none, false, true⟩ :=
  c2_determinism _ _ rfl rfl rfl rfl rfl rfl rfl

open CreateProject in
/-- C8 (amended).  The synthesizer has no hardware-simulation support: the
resolved configuration carries no hardware toggle, and every run emits
exactly `CMakeLists.txt`, `src/main.cpp`, the custom-module pair iff
`use_custom`, `.gitignore`, `build.sh` and `README.md` — no hardware
description, no simulation wrapper, no copied support tree and no
waveform-viewing helper script — and `build.sh` is the only executable
artifact. -/
theorem c8_no_hardware_scaffold : ∀ c : SynthConfig,
    (artifact_paths c =
      if c.use_custom then
        ["CMakeLists.txt", "src/main.cpp", "src/custom/MyModule.hpp",
         "src/custom/MyModule.cpp", ".gitignore", "build.sh", "README.md"]
      else
        ["CMakeLists.txt", "src/main.cpp", ".gitignore", "build.sh", "README.md"]) ∧
    (∀ x ∈ artifacts c, x.2.2 = true ↔ x.1 = "build.sh") := by
  intro c
  constructor
  · cases hc : c.use_custom <;> simp [artifact_paths, artifacts, hc]
  · intro x hx
    cases hc : c.use_custom
    · simp [artifacts, hc] at hx
      rcases hx with hx | hx | hx | hx | hx <;> subst hx <;> simp
    · simp [artifacts, hc] at hx
      rcases hx with hx | hx | hx | hx | hx | hx | hx <;> subst hx <;> simp

open CreateProject in
/-- C8 (witness). -/
theorem c8_no_hardware_scaffold_witness :
    (((".gitignore", gitignore_text, false) : String × String × Bool).2.2 = true ↔
      ((".gitignore", gitignore_text, false) : String × String × Bool).1 = "build.sh") :=
  (c8_no_hardware_scaffold ⟨"demo", ".", "/h", "/s", none, false, true⟩).2
    (".gitignore", gitignore_text, false) (by simp [artifacts])

open CreateProject in
/-- C8 (counterexample).  For every toggle combination the emitted relative
paths are exactly the fixed lists below; none of them is a hardware
description, simulation wrapper, support tree or waveform-viewer script
(no emitted path mentions any of `wave`, `surfer`, `vhd`, `verilator`,
`hw`, `sim`), so no configuration makes the synthesizer emit the
hardware-simulation scaffold the claim describes, and no
`use_hardware_sim` toggle exists in the configuration. -/
theorem c8_counterexample :
    (artifact_paths ⟨"demo", ".", "/opt/hulotte", "/opt/spu", none, false, true⟩ =
      ["CMakeLists.txt", "src/main.cpp", "src/custom/MyModule.hpp",
       "src/custom/MyModule.cpp", ".gitignore", "build.sh", "README.md"]) ∧
    (artifact_paths ⟨"demo", ".", "/opt/hulotte", "/opt/spu", some "/opt/aff3ct", true, false⟩ =
      ["CMakeLists.txt", "src/main.cpp", ".gitignore", "build.sh", "README.md"]) ∧
    (["CMakeLists.txt", "src/main.cpp", "src/custom/MyModule.hpp",
      "src/custom/MyModule.cpp", ".gitignore", "build.sh", "README.md"].all
      (fun p => !(strOccurs "wave" p || (strOccurs "surfer" p ||
        (strOccurs "vhd" p || (strOccurs "verilator" p ||
          (strOccurs "hw" p || strOccurs "sim" p)))))) = true) := by
  exact ⟨by decide, by decide, by decide⟩

open CreateProject in
/-- C9 (amended).  The generated build-invocation script is the only
executable artifact and always passes all three root flags: the StreamPU
and Hulotte roots with their configured values, and `AFF3CT_ROOT`
unconditionally — with the configured value when AFF3CT is enabled, and
with the literal text `None` (Python's `str(None)`) when it is disabled,
i.e. a dangling reference to the disabled feature. -/
theorem c9_build_script_flags : ∀ (pn h s : String) (a : Option String),
    (strOccurs ("-DSTREAMPU_ROOT=\"" ++ (s ++ "\"")) (build_script pn h s a) = true) ∧
    (strOccurs ("-DAFF3CT_ROOT=\"" ++ (pyOptStr a ++ "\"")) (build_script pn h s a) = true) ∧
    (strOccurs ("-DHULOTTE_ROOT=\"" ++ (h ++ "\"")) (build_script pn h s a) = true) ∧
    (∀ c : SynthConfig,
      ("build.sh", build_script c.project_name c.hulotte_dir c.streampu_dir c.aff3ct_dir,
        true) ∈ artifacts c) := by
  intro pn h s a
  refine ⟨?_, ?_, ?_, ?_⟩
  · unfold build_script
    apply strOccurs_append_right
    apply strOccurs_append_right
    apply strOccurs_append_right
    exact strOccurs_head _ _
  · unfold build_script
    apply strOccurs_append_right
    apply strOccurs_append_right
    apply strOccurs_append_right
    apply strOccurs_append_right
    apply strOccurs_append_right
    exact strOccurs_head _ _
  · unfold build_script
    apply strOccurs_append_right
    apply strOccurs_append_right
    apply strOccurs_append_right
    apply strOccurs_append_right
    apply strOccurs_append_right
    apply strOccurs_append_right
    apply strOccurs_append_right
    exact strOccurs_head _ _
  · intro c
    cases hc : c.use_custom <;> simp [artifacts, hc]

open CreateProject in
/-- Shared helper: when a non-empty project name and a non-empty StreamPU
root (and, if AFF3CT is enabled, a non-empty AFF3CT root) are supplied on
the command line, `resolve_config` succeeds for every filesystem oracle,
consumes no input, emits no message, and resolves the unset toggles to
their non-interactive defaults (`use_custom = ¬no_custom`,
`use_aff3ct = aff3ct flag`). -/
theorem resolve_config_supplied (a : CpArgs) (fs : String → Bool) (cwd : String)
    (inputs : List String) (n r : String)
    (hn : a.name = some n) (hn2 : n ≠ "")
    (hr : a.streampu_root = some r) (hr2 : r ≠ "")
    (ha : a.aff3ct = true → ∃ ar, a.aff3ct_root = some ar ∧ ar ≠ "") :
    resolve_config a fs cwd inputs =
      some (⟨n, ".", cwd, r, (if a.aff3ct then a.aff3ct_root else none),
             a.aff3ct, !a.no_custom⟩, inputs, []) := by
  cases haff : a.aff3ct with
  | true =>
    obtain ⟨ar, har, har2⟩ := ha haff
    cases hnc : a.no_custom <;>
      simp [resolve_config, hn, hr, har, opt_truthy, use_aff3ct_arg, use_custom_arg,
        haff, hnc, hn2, hr2, har2]
  | false =>
    cases hnc : a.no_custom <;>
      simp [resolve_config, hn, hr, opt_truthy, use_aff3ct_arg, use_custom_arg,
        haff, hnc, hn2, hr2]

open CreateProject in
/-- C3 (amended).  When a project name is supplied up front, toggle
resolution never prompts (unset toggles default to custom = on,
AFF3CT = off; no hardware toggle exists) and the output directory defaults
to `"."`; and whenever the library roots that the configuration needs are
also supplied, no prompt of any kind occurs, no input is consumed, and the
supplied roots are trusted without a single filesystem check (the result
is the same for every filesystem oracle `fs`).  Library-root prompts do
still occur when the corresponding root is not supplied (see the
counterexample). -/
theorem c3_noninteractive_amended (a : CpArgs) (fs : String → Bool) (cwd : String)
    (inputs : List String) (n r : String)
    (hn : a.name = some n) (hn2 : n ≠ "")
    (hr : a.streampu_root = some r) (hr2 : r ≠ "")
    (ha : a.aff3ct = true → ∃ ar, a.aff3ct_root = some ar ∧ ar ≠ "") :
    resolve_config a fs cwd inputs =
      some (⟨n, ".", cwd, r, (if a.aff3ct then a.aff3ct_root else none),
             a.aff3ct, !a.no_custom⟩, inputs, []) :=
  resolve_config_supplied a fs cwd inputs n r hn hn2 hr hr2 ha

open CreateProject in
/-- C3 (witness).  The filesystem oracle rejecting every path shows that no
validation check can have influenced the result. -/
theorem c3_noninteractive_amended_witness :
    resolve_config ⟨some "demo", true, true, false, some "/opt/spu", some "/opt/aff3ct"⟩
        (fun _ => false) "/opt/hulotte" ["x"] =
      some (⟨"demo", ".", "/opt/hulotte", "/opt/spu",
             (if (true : Bool) then some "/opt/aff3ct" else none), true, !false⟩,
            ["x"], []) :=
  c3_noninteractive_amended ⟨some "demo", true, true, false, some "/opt/spu", some "/opt/aff3ct"⟩
    (fun _ => false) "/opt/hulotte" ["x"] "demo" "/opt/spu" rfl (by decide) rfl (by decide)
    (fun _ => ⟨"/opt/aff3ct", rfl, by decide⟩)

open CreateProject in
/-- C3 (counterexample).  A project name supplied up front does not prevent
prompting: with no `--streampu-root` on the command line the resolver still
prompts for the StreamPU directory (one `input()` call that would block on
operator input), refuting "no prompt occurs anywhere during configuration
resolution" for every invocation with a name supplied. -/
theorem c3_counterexample :
    resolve_config ⟨some "demo", true, false, false, none, none⟩ (fun _ => true)
        "/opt/hulotte" ["/opt/spu"] =
      some (⟨"demo", ".", "/opt/hulotte", "/opt/spu", none, false, true⟩, [],
            [Msg.ask "Path to StreamPU directory: "]) := by
  decide

open CreateProject in
/-- Pointwise-equal predicates take equal `List.all` values. -/
theorem list_all_congr {l : List Char} {f g : Char → Bool}
    (h : ∀ x ∈ l, f x = g x) : l.all f = l.all g := by
  induction l with
  | nil => rfl
  | cons a t ih =>
    simp only [List.all_cons, h a (List.mem_cons_self a t)]
    rw [ih (fun x hx => h x (List.mem_cons_of_mem a hx))]

open CreateProject in
/-- Shared helper: the ASCII instantiation of the code's name test accepts
exactly the `[A-Za-z0-9_-]+`-matching strings that contain at least one
alphanumeric character. -/
theorem py_valid_name_ascii_iff (s : String) :
    py_valid_name s = true ↔
      (regex_valid_name s = true ∧ s.data.any Char.isAlphanum = true) := by
  have hdata : (strip_sep s).data = s.data.filter (fun c => !(c == '_' || c == '-')) := rfl
  constructor
  · intro h
    rw [py_valid_name, Bool.and_eq_true, py_isalnum, Bool.and_eq_true, hdata] at h
    obtain ⟨h1, h2, h3⟩ := h
    rw [List.all_eq_true] at h3
    have hne : s.data.filter (fun c => !(c == '_' || c == '-')) ≠ [] := by
      intro hh
      rw [hh] at h2
      exact absurd h2 (by decide)
    refine ⟨?_, ?_⟩
    · rw [regex_valid_name, Bool.and_eq_true]
      refine ⟨h1, ?_⟩
      rw [List.all_eq_true]
      intro c hc
      by_cases hsep : (c == '_' || c == '-') = true
      · rw [Bool.or_eq_true]
        right
        exact hsep
      · have hmem : c ∈ s.data.filter (fun c => !(c == '_' || c == '-')) :=
          List.mem_filter.mpr ⟨hc, by rw [Bool.eq_false_iff.mpr hsep]; rfl⟩
        rw [Bool.or_eq_true]
        left
        exact h3 c hmem
    · rw [List.any_eq_true]
      obtain ⟨c, hc⟩ := List.exists_mem_of_ne_nil _ hne
      obtain ⟨hcs, -⟩ := List.mem_filter.mp hc
      exact ⟨c, hcs, h3 c hc⟩
  · rintro ⟨hreg, hany⟩
    rw [regex_valid_name, Bool.and_eq_true] at hreg
    obtain ⟨h1, hclass⟩ := hreg
    rw [List.all_eq_true] at hclass
    rw [List.any_eq_true] at hany
    obtain ⟨c, hcs, hcal⟩ := hany
    rw [py_valid_name, Bool.and_eq_true, py_isalnum, Bool.and_eq_true, hdata]
    have hcf : c ∈ s.data.filter (fun c => !(c == '_' || c == '-')) := by
      refine List.mem_filter.mpr ⟨hcs, ?_⟩
      have hu : ¬(c == '_') = true := fun hh => by
        rw [beq_iff_eq] at hh
        rw [hh] at hcal
        exact absurd hcal (by decide)
      have hm : ¬(c == '-') = true := fun hh => by
        rw [beq_iff_eq] at hh
        rw [hh] at hcal
        exact absurd hcal (by decide)
      rw [Bool.eq_false_iff.mpr hu, Bool.eq_false_iff.mpr hm]
      rfl
    refine ⟨h1, ?_, ?_⟩
    · have hne : s.data.filter (fun c => !(c == '_' || c == '-')) ≠ [] :=
        List.ne_nil_of_mem hcf
      rcases hh : s.data.filter (fun c => !(c == '_' || c == '-')) with _ | ⟨x, xs⟩
      · exact absurd hh hne
      · rfl
    · rw [List.all_eq_true]
      intro x hx
      obtain ⟨hxs, hxsep⟩ := List.mem_filter.mp hx
      have hcx := hclass x hxs
      rw [Bool.or_eq_true] at hcx
      rcases hcx with h | h
      · exact h
      · rw [h] at hxsep
        exact absurd hxsep (by decide)

open CreateProject in
/-- Shared helper: on an all-ASCII string, every oracle that agrees with
`Char.isAlphanum` on the ASCII range gives the concrete test. -/
theorem py_valid_name_w_ascii (alnum : Char → Bool)
    (hagree : ∀ c : Char, c.toNat < 128 → alnum c = c.isAlphanum)
    (s : String) (hs : s.data.all (fun c => decide (c.toNat < 128)) = true) :
    py_valid_name_w alnum s = py_valid_name s := by
  rw [py_valid_name_w, py_valid_name, py_isalnum_w, py_isalnum]
  have hdata : (strip_sep s).data = s.data.filter (fun c => !(c == '_' || c == '-')) := rfl
  have hcong : (strip_sep s).data.all alnum = (strip_sep s).data.all Char.isAlphanum := by
    apply list_all_congr
    intro x hx
    rw [hdata] at hx
    have hxs : x ∈ s.data := (List.mem_filter.mp hx).1
    have hxa := List.all_eq_true.mp hs x hxs
    exact hagree x (of_decide_eq_true hxa)
  rw [hcong]

open CreateProject in
/-- C7 (amended).  Python's `str.isalnum` consults Unicode character
tables outside this repository, so the statement quantifies over its
per-character test `alnum`, pinned by the two documented facts used: on
the ASCII range it coincides with `Char.isAlphanum`, and it accepts the
non-ASCII alphanumeric U+00E9.  Under those constraints: (1) the
interactive name prompt only ever returns names the code's test accepts;
(2) on all-ASCII strings the code's test accepts exactly the
`[A-Za-z0-9_-]+`-matching strings that contain at least one alphanumeric
character — so the ASCII name `"_"` matches the regex yet is re-prompted;
(3) the two languages are incomparable in general: the code accepts
`"é"`, which the regex rejects; (4) a name supplied up front is never
validated — resolution succeeds outright for every non-empty supplied
name. -/
theorem c7_name_validation_amended :
    ∀ alnum : Char → Bool,
      (∀ c : Char, c.toNat < 128 → alnum c = c.isAlphanum) →
      alnum 'é' = true →
      ((∀ (q : String) (d : Option String) (inputs : List String) (n : String)
          (rest : List String) (log : List Msg),
          ask_name_w alnum q d inputs = some (n, rest, log) →
          py_valid_name_w alnum n = true) ∧
       (∀ s : String, s.data.all (fun c => decide (c.toNat < 128)) = true →
          (py_valid_name_w alnum s = true ↔
            (regex_valid_name s = true ∧ s.data.any Char.isAlphanum = true))) ∧
       (py_valid_name_w alnum "é" = true ∧ regex_valid_name "é" = false) ∧
       (∀ (fs : String → Bool) (cwd : String) (inputs : List String) (s r : String),
          s ≠ "" → r ≠ "" →
          resolve_config ⟨some s, true, false, false, some r, none⟩ fs cwd inputs =
            some (⟨s, ".", cwd, r, none, false, true⟩, inputs, []))) := by
  intro alnum hagree heac
  refine ⟨?_, ?_, ⟨?_, by decide⟩, ?_⟩
  · intro q d inputs
    induction inputs with
    | nil => intro n rest log h; exact absurd h (by simp [ask_name_w])
    | cons r t ih =>
      intro n rest log h
      simp only [ask_name_w] at h
      split at h
      · next hvalid =>
        simp only [Option.some.injEq, Prod.mk.injEq] at h
        rw [← h.1]
        exact hvalid
      · split at h
        · exact Option.noConfusion h
        · next heq =>
          simp only [Option.some.injEq, Prod.mk.injEq] at h
          rw [← h.1]
          exact ih _ _ _ heq
  · intro s hs
    rw [py_valid_name_w_ascii alnum hagree s hs]
    exact py_valid_name_ascii_iff s
  · have h1 : strip_sep "é" = "é" := rfl
    have h2 : "é".data = ['é'] := rfl
    rw [py_valid_name_w, h1, py_isalnum_w, h2]
    simp [heac]
  · intro fs cwd inputs s r hs hr
    have := resolve_config_supplied ⟨some s, true, false, false, some r, none⟩
      fs cwd inputs s r rfl hs rfl hr (fun h => by simp at h)
    simpa using this

open CreateProject in
/-- C7 (witness).  The oracle hypotheses are discharged at the concrete
test `alnum_sample`. -/
theorem c7_name_validation_amended_witness :
    py_valid_name_w alnum_sample "demo" = true ∧
    (py_valid_name_w alnum_sample "é" = true ∧ regex_valid_name "é" = false) ∧
    resolve_config ⟨some "demo", true, false, false, some "/opt/spu", none⟩
        (fun _ => false) "/work" [] =
      some (⟨"demo", ".", "/work", "/opt/spu", none, false, true⟩, [], []) := by
  have h := c7_name_validation_amended alnum_sample
    (fun c hc => by
      have hne : (c == 'é') = false := by
        rw [beq_eq_false_iff_ne]
        intro hcc
        rw [hcc] at hc
        exact absurd hc (by decide)
      simp [alnum_sample, hne])
    (by decide)
  exact ⟨h.1 "Project name:" none ["demo"] "demo" [] [Msg.ask "Project name:: "] (by decide),
         h.2.2.1,
         h.2.2.2 (fun _ => false) "/work" [] "demo" "/opt/spu" (by decide) (by decide)⟩

open CreateProject in
/-- C7 (counterexample).  The ASCII name `"_"` matches the specification's
`[A-Za-z0-9_-]+` but the prompt loop rejects and re-prompts on it
(stripping `_`/`-` leaves the empty string, whose `isalnum()` is false);
the code accepts `"é"`, which the regex rejects; and the invalid supplied
name `"bad name!"` is accepted outright by resolution — the claimed
acceptance language is wrong in both directions, and the claimed
non-interactive failure never happens.  The oracle is the concrete
`alnum_sample`; on the ASCII inputs `"_"`/`"ok2"` every admissible oracle
agrees with it. -/
theorem c7_counterexample :
    (regex_valid_name "_" = true) ∧
    (py_valid_name_w alnum_sample "_" = false) ∧
    (ask_name_w alnum_sample "Project name:" (some "my_spu_project") ["_", "ok2"] =
      some ("ok2", [],
        [Msg.ask "Project name: [my_spu_project]: ",
         Msg.plain "Invalid name. Use alphanumeric characters, hyphens, or underscores.",
         Msg.ask "Project name: [my_spu_project]: "])) ∧
    (py_valid_name_w alnum_sample "é" = true) ∧
    (regex_valid_name "é" = false) ∧
    (resolve_config ⟨some "bad name!", true, false, false, some "/s", none⟩
        (fun _ => true) "/h" [] =
      some (⟨"bad name!", ".", "/h", "/s", none, false, true⟩, [], [])) := by
  exact ⟨by decide, by decide, by decide, by decide, by decide, by decide⟩

open CreateProject in
/-- C9 (counterexample).  With AFF3CT disabled the build script still passes
an `AFF3CT_ROOT` build parameter — with the dangling literal value `None` —
and the README repeats it, refuting "passes no disabled feature's root path —
no generated artifact contains a dangling reference to a disabled
feature". -/
theorem c9_counterexample :
    (strOccurs "-DAFF3CT_ROOT=\"None\""
      (build_script "demo" "/opt/hulotte" "/opt/spu" none) = true) ∧
    (strOccurs "-DAFF3CT_ROOT=None"
      (readme_text "demo" "/opt/hulotte" "/opt/spu" none false true) = true) := by
  exact ⟨by decide, by decide⟩

open InstallDeps in
/-- C4 (code_bug).  When the AFF3CT target directory already exists and the
operator declines delete-and-reinstall, `install_aff3ct` does report
"Skipping AFF3CT installation" and short-circuits the remaining stages, but
it returns the same `None` as a failure, so `main` additionally reports the
skip as the error "AFF3CT installation failed" and asks "Continue anyway?"
(default no): with default answers the run exits 1, and it can finish with
exit code 0 only after an explicit opt-in — contradicting the claim that the
skip is not reported as an error. -/
theorem c4_skip_conflated_with_failure :
    (main_exit env_skip "/opt/hulotte" ["", "", "", ""] = 1) ∧
    (Msg.info "Skipping AFF3CT installation" ∈
      main_log env_skip "/opt/hulotte" ["", "", "", ""]) ∧
    (Msg.err "AFF3CT installation failed" ∈
      main_log env_skip "/opt/hulotte" ["", "", "", ""]) ∧
    (Msg.ask "Continue anyway? [y/N]: " ∈
      main_log env_skip "/opt/hulotte" ["", "", "", ""]) ∧
    (main_exit env_skip "/opt/hulotte" ["", "", "", "y", "n", "n"] = 0) := by
  exact ⟨by decide, by decide, by decide, by decide, by decide⟩

open InstallDeps in
/-- C10 (code_bug).  The compile stage does invoke the native build with
`make -j{cores}` where `cores = str(os.cpu_count())`, but when core-count
detection fails (`os.cpu_count()` returns `None` without raising) the
result is the string `"None"` — producing `make -jNone` — and not the
fixed fallback constant `"4"`, whose `except` branch is unreachable for
that failure mode. -/
theorem c10_cpu_fallback_unreachable :
    (get_cpu_cores (some 8) = "8") ∧
    (make_cmd (some 8) = "make -j8") ∧
    (get_cpu_cores none = "None") ∧
    (make_cmd none = "make -jNone") ∧
    ¬(get_cpu_cores none = "4") := by
  exact ⟨by decide, by decide, by decide, by decide, by decide⟩

open InstallDeps in
/-- C6 (counterexample).  Bundled kind with the canonical library absent and
two glob matches: the install succeeds with the first match and the full
message log (shown in extenso) contains no ambiguity report of any kind.
Standalone kind with the canonical library absent: the install fails with
no glob fallback at all.  This refutes "with more than one match it is
reported as ambiguous" and the fallback's existence for the standalone
kind. -/
theorem c6_counterexample :
    (install_aff3ct env_glob2 "/opt/hulotte" [""] =
      some (some ⟨"/opt/hulotte/aff3ct", "/opt/hulotte/aff3ct/build/lib/libaff3ct-3.0.2.a",
              some ("/opt/hulotte/aff3ct/lib/streampu",
                    "/opt/hulotte/aff3ct/build/lib/streampu/lib/libstreampu.a")⟩,
            [],
            [Msg.plain "Installing AFF3CT with StreamPU",
             Msg.info "Latest AFF3CT version: v3.0.2",
             Msg.ask "Use v3.0.2? [Y/n]: ",
             Msg.info "Cloning AFF3CT repository...",
             Msg.ok "AFF3CT cloned successfully",
             Msg.info "Configuring AFF3CT with CMake...",
             Msg.ok "CMake configuration successful",
             Msg.info "Compiling AFF3CT (using 8 cores)...",
             Msg.info "This may take several minutes...",
             Msg.ok "AFF3CT compiled successfully",
             Msg.ok "AFF3CT library found: libaff3ct-3.0.2.a",
             Msg.ok "StreamPU library found (compiled with AFF3CT)"])) ∧
    (streampu_result_ok env_spu_noverify "/opt/hulotte" [""] = false) ∧
    (Msg.err "StreamPU library not found after compilation" ∈
      streampu_result_msgs env_spu_noverify "/opt/hulotte" [""]) := by
  exact ⟨by decide, by decide, by decide⟩

open InstallDeps in
/-- C6 (amended).  In the verify stage: only the bundled kind
(`install_aff3ct`) has a fallback — when the canonical
`libaff3ct-4.1.0.a` is absent, zero `libaff3ct-*.a` glob matches fail the
install, and one *or more* matches make it succeed silently with the first
match (no ambiguity report); the standalone kind (`install_streampu`) has
no fallback — a missing canonical `libstreampu.a` is immediately fatal. -/
theorem c6_verify_fallback_amended :
    (∀ (env : InstEnv) (hr : String) (inputs : List String) (tag : Option String)
       (i1 : List String) (m1 : List Msg),
       choose_version env.latest_aff3ct "AFF3CT" inputs = some (tag, i1, m1) →
       env.aff3ct_dir_exists = false →
       env.run (aff3ct_clone_cmd tag) = true →
       env.run aff3ct_cmake_cmd = true →
       env.run (make_cmd env.cpu) = true →
       env.aff3ct_canonical_lib = false →
       ((env.aff3ct_glob_libs = [] →
           ∃ ms, install_aff3ct env hr inputs = some (none, i1, ms) ∧
             Msg.err "AFF3CT library not found after compilation" ∈ ms) ∧
        (∀ (f : String) (fs2 : List String), env.aff3ct_glob_libs = f :: fs2 →
           ∃ info ms, install_aff3ct env hr inputs = some (some info, i1, ms) ∧
             info.aff3ct_lib = (hr ++ "/aff3ct") ++ ("/build/lib/" ++ f) ∧
             Msg.ok ("AFF3CT library found: " ++ f) ∈ ms))) ∧
    (∀ (env : InstEnv) (hr : String) (inputs : List String) (tag : Option String)
       (i1 : List String) (m1 : List Msg),
       choose_version env.latest_streampu "StreamPU" inputs = some (tag, i1, m1) →
       env.streampu_dir_exists = false →
       env.run (streampu_clone_cmd tag) = true →
       env.run streampu_cmake_cmd = true →
       env.run (make_cmd env.cpu) = true →
       env.streampu_canonical_lib = false →
       ∃ ms, install_streampu env hr inputs = some (none, i1, ms) ∧
         Msg.err "StreamPU library not found after compilation" ∈ ms) := by
  constructor
  · intro env hr inputs tag i1 m1 hcv hdir hclone hcfg hmk hver
    constructor
    · intro hglob
      unfold install_aff3ct
      rw [hcv]
      simp only [hdir, Bool.false_eq_true, if_false, run_command, hclone, hcfg, hmk,
        hver, hglob]
      exact ⟨_, rfl, by simp⟩
    · intro f fs2 hglob
      cases hb : env.aff3ct_bundled_spu <;>
      · unfold install_aff3ct
        rw [hcv]
        simp only [hdir, Bool.false_eq_true, if_false, run_command, hclone, hcfg, hmk,
          hver, hglob, hb]
        exact ⟨_, _, rfl, rfl, by simp⟩
  · intro env hr inputs tag i1 m1 hcv hdir hclone hcfg hmk hver
    unfold install_streampu
    rw [hcv]
    simp only [hdir, Bool.false_eq_true, if_false, run_command, hclone, hcfg, hmk, hver]
    exact ⟨_, rfl, by simp⟩

open InstallDeps in
/-- C6 (witness). -/
theorem c6_verify_fallback_amended_witness :
    (∃ info ms, install_aff3ct env_glob2 "/opt/hulotte" [""] = some (some info, [], ms) ∧
       info.aff3ct_lib = ("/opt/hulotte" ++ "/aff3ct") ++ ("/build/lib/" ++ "libaff3ct-3.0.2.a") ∧
       Msg.ok ("AFF3CT library found: " ++ "libaff3ct-3.0.2.a") ∈ ms) ∧
    (∃ ms, install_streampu env_spu_noverify "/opt/hulotte" [""] = some (none, [], ms) ∧
       Msg.err "StreamPU library not found after compilation" ∈ ms) :=
  ⟨(c6_verify_fallback_amended.1 env_glob2 "/opt/hulotte" [""] (some "v3.0.2") []
      [Msg.info "Latest AFF3CT version: v3.0.2", Msg.ask "Use v3.0.2? [Y/n]: "]
      (by decide) (by decide) (by decide) (by decide) (by decide) (by decide)).2
    "libaff3ct-3.0.2.a" ["libaff3ct-2.0.0.a"] (by decide),
   c6_verify_fallback_amended.2 env_spu_noverify "/opt/hulotte" [""] (some "v1.1.0") []
      [Msg.info "Latest StreamPU version: v1.1.0", Msg.ask "Use v1.1.0? [Y/n]: "]
      (by decide) (by decide) (by decide) (by decide) (by decide) (by decide)⟩

namespace InstallDeps

/-! Helper lemmas for C5: the only possible sources of the two failure
reports "AFF3CT installation failed" / "StreamPU installation failed" in
the log of `install_main`. -/

theorem benignB_not_err_aff3ct {l : List Msg} (hall : l.all benignB = true) :
    Msg.err "AFF3CT installation failed" ∉ l := by
  intro hm
  exact absurd (List.all_eq_true.mp hall _ hm) (by decide)

theorem benignB_not_err_streampu {l : List Msg} (hall : l.all benignB = true) :
    Msg.err "StreamPU installation failed" ∉ l := by
  intro hm
  exact absurd (List.all_eq_true.mp hall _ hm) (by decide)

theorem cmd_failed_head (c : String) :
    ("Command failed: " ++ c).data.head? = some 'C' := by
  rw [String.data_append]
  rfl

theorem run_command_all_benign (env : InstEnv) (cmd : String) :
    (run_command env cmd).2.all benignB = true := by
  unfold run_command
  split
  · rfl
  · have hA : (("Command failed: " ++ cmd) == "AFF3CT installation failed") = false := by
      rw [beq_eq_false_iff_ne]
      intro he
      have h1 := cmd_failed_head cmd
      rw [he] at h1
      exact absurd h1 (by decide)
    have hS : (("Command failed: " ++ cmd) == "StreamPU installation failed") = false := by
      rw [beq_eq_false_iff_ne]
      intro he
      have h1 := cmd_failed_head cmd
      rw [he] at h1
      exact absurd h1 (by decide)
    simp [benignB, hA, hS]

theorem inst_ask_yes_no_all_benign :
    ∀ (inputs : List String) (q : String) (d b : Bool) (rest : List String) (ms : List Msg),
      ask_yes_no q d inputs = some (b, rest, ms) → ms.all benignB = true := by
  intro inputs
  induction inputs with
  | nil => intro q d b rest ms h; exact Option.noConfusion h
  | cons r t ih =>
    intro q d b rest ms h
    simp only [ask_yes_no] at h
    split at h
    · simp only [Option.some.injEq, Prod.mk.injEq] at h
      rw [← h.2.2]
      rfl
    · split at h
      · simp only [Option.some.injEq, Prod.mk.injEq] at h
        rw [← h.2.2]
        rfl
      · split at h
        · simp only [Option.some.injEq, Prod.mk.injEq] at h
          rw [← h.2.2]
          rfl
        · split at h
          · exact Option.noConfusion h
          · next b' rem ms' heq =>
            simp only [Option.some.injEq, Prod.mk.injEq] at h
            rw [← h.2.2]
            simp [benignB, ih q d b' rem ms' heq]

theorem inst_ask_yes_no_mem_prompt :
    ∀ (inputs : List String) (q : String) (d b : Bool) (rest : List String) (ms : List Msg),
      ask_yes_no q d inputs = some (b, rest, ms) →
      Msg.ask (q ++ (" [" ++ ((if d then "Y/n" else "y/N") ++ "]: "))) ∈ ms := by
  intro inputs q d b rest ms h
  rcases inputs with _ | ⟨r, t⟩
  · exact Option.noConfusion h
  · simp only [ask_yes_no] at h
    split at h
    · simp only [Option.some.injEq, Prod.mk.injEq] at h
      rw [← h.2.2]
      exact List.mem_singleton.mpr rfl
    · split at h
      · simp only [Option.some.injEq, Prod.mk.injEq] at h
        rw [← h.2.2]
        exact List.mem_singleton.mpr rfl
      · split at h
        · simp only [Option.some.injEq, Prod.mk.injEq] at h
          rw [← h.2.2]
          exact List.mem_singleton.mpr rfl
        · split at h
          · exact Option.noConfusion h
          · simp only [Option.some.injEq, Prod.mk.injEq] at h
            rw [← h.2.2]
            exact List.mem_cons_self _ _

theorem read_line_all_benign (q : String) (inputs : List String) (s : String)
    (rest : List String) (ms : List Msg)
    (h : read_line q inputs = some (s, rest, ms)) : ms.all benignB = true := by
  rcases inputs with _ | ⟨r, t⟩
  · exact Option.noConfusion h
  · simp only [read_line, Option.some.injEq, Prod.mk.injEq] at h
    rw [← h.2.2]
    rfl

theorem choose_version_all_benign (latest : Option String) (repo : String)
    (inputs : List String) (t : Option String) (i : List String) (ms : List Msg)
    (h : choose_version latest repo inputs = some (t, i, ms)) :
    ms.all benignB = true := by
  rcases latest with _ | t0
  · simp only [choose_version] at h
    split at h
    · exact Option.noConfusion h
    · next custom i1 m1 heq =>
      simp only [Option.some.injEq, Prod.mk.injEq] at h
      rw [← h.2.2]
      simp [benignB, List.all_append, read_line_all_benign _ _ _ _ _ heq]
  · simp only [choose_version] at h
    split at h
    · exact Option.noConfusion h
    · next b i1 m1 heq =>
      split at h
      · simp only [Option.some.injEq, Prod.mk.injEq] at h
        rw [← h.2.2]
        simp [benignB, List.all_append, inst_ask_yes_no_all_benign _ _ _ _ _ _ heq]
      · split at h
        · exact Option.noConfusion h
        · next custom i2 m2 heq2 =>
          simp only [Option.some.injEq, Prod.mk.injEq] at h
          rw [← h.2.2]
          simp [benignB, List.all_append, inst_ask_yes_no_all_benign _ _ _ _ _ _ heq,
            read_line_all_benign _ _ _ _ _ heq2]

theorem install_aff3ct_all_benign (env : InstEnv) (hr : String) (inputs : List String)
    (r : Option Aff3ctInfo) (i : List String) (ms : List Msg)
    (h : install_aff3ct env hr inputs = some (r, i, ms)) : ms.all benignB = true := by
  rcases hcv : choose_version env.latest_aff3ct "AFF3CT" inputs with _ | ⟨tag, i1, m1⟩
  · rw [install_aff3ct, hcv] at h
    exact Option.noConfusion h
  · have hm1 := choose_version_all_benign _ _ _ _ _ _ hcv
    simp only [install_aff3ct, hcv] at h
    split at h
    · exact Option.noConfusion h
    · next skipped i3 m4 heq2 =>
      have hm4 : m4.all benignB = true := by
        split at heq2
        · split at heq2
          · exact Option.noConfusion heq2
          · next b i2 m3 heq3 =>
            have hm3 := inst_ask_yes_no_all_benign _ _ _ _ _ _ heq3
            split at heq2 <;>
            · simp only [Option.some.injEq, Prod.mk.injEq] at heq2
              rw [← heq2.2.2]
              simp [benignB, List.all_append, hm3, run_command_all_benign]
        · simp only [Option.some.injEq, Prod.mk.injEq] at heq2
          rw [← heq2.2.2]
          rfl
      split at h
      · simp only [Option.some.injEq, Prod.mk.injEq] at h
        rw [← h.2.2]
        simp [benignB, List.all_append, hm1, hm4]
      · split at h
        · simp only [Option.some.injEq, Prod.mk.injEq] at h
          rw [← h.2.2]
          simp [benignB, List.all_append, hm1, hm4, run_command_all_benign]
        · split at h
          · simp only [Option.some.injEq, Prod.mk.injEq] at h
            rw [← h.2.2]
            simp [benignB, List.all_append, hm1, hm4, run_command_all_benign]
          · split at h
            · simp only [Option.some.injEq, Prod.mk.injEq] at h
              rw [← h.2.2]
              simp [benignB, List.all_append, hm1, hm4, run_command_all_benign]
            · split at h
              · simp only [Option.some.injEq, Prod.mk.injEq] at h
                rw [← h.2.2]
                simp [benignB, List.all_append, hm1, hm4, run_command_all_benign]
              · next lib_name mLib heq3 =>
                have hmLib : mLib.all benignB = true := by
                  split at heq3
                  · simp only [Option.some.injEq, Prod.mk.injEq] at heq3
                    rw [← heq3.2]
                    rfl
                  · split at heq3
                    · exact Option.noConfusion heq3
                    · simp only [Option.some.injEq, Prod.mk.injEq] at heq3
                      rw [← heq3.2]
                      rfl
                simp only [Option.some.injEq, Prod.mk.injEq] at h
                rw [← h.2.2]
                cases hb : env.aff3ct_bundled_spu <;>
                  simp [hb, benignB, List.all_append, hm1, hm4, hmLib, run_command_all_benign]

theorem install_streampu_all_benign (env : InstEnv) (hr : String) (inputs : List String)
    (r : Option StreampuInfo) (i : List String) (ms : List Msg)
    (h : install_streampu env hr inputs = some (r, i, ms)) : ms.all benignB = true := by
  rcases hcv : choose_version env.latest_streampu "StreamPU" inputs with _ | ⟨tag, i1, m1⟩
  · rw [install_streampu, hcv] at h
    exact Option.noConfusion h
  · have hm1 := choose_version_all_benign _ _ _ _ _ _ hcv
    simp only [install_streampu, hcv] at h
    split at h
    · exact Option.noConfusion h
    · next skipped i3 m4 heq2 =>
      have hm4 : m4.all benignB = true := by
        split at heq2
        · split at heq2
          · exact Option.noConfusion heq2
          · next b i2 m3 heq3 =>
            have hm3 := inst_ask_yes_no_all_benign _ _ _ _ _ _ heq3
            split at heq2 <;>
            · simp only [Option.some.injEq, Prod.mk.injEq] at heq2
              rw [← heq2.2.2]
              simp [benignB, List.all_append, hm3, run_command_all_benign]
        · simp only [Option.some.injEq, Prod.mk.injEq] at heq2
          rw [← heq2.2.2]
          rfl
      split at h
      · simp only [Option.some.injEq, Prod.mk.injEq] at h
        rw [← h.2.2]
        simp [benignB, List.all_append, hm1, hm4]
      · split at h
        · simp only [Option.some.injEq, Prod.mk.injEq] at h
          rw [← h.2.2]
          simp [benignB, List.all_append, hm1, hm4, run_command_all_benign]
        · split at h
          · simp only [Option.some.injEq, Prod.mk.injEq] at h
            rw [← h.2.2]
            simp [benignB, List.all_append, hm1, hm4, run_command_all_benign]
          · split at h
            · simp only [Option.some.injEq, Prod.mk.injEq] at h
              rw [← h.2.2]
              simp [benignB, List.all_append, hm1, hm4, run_command_all_benign]
            · split at h <;>
              · simp only [Option.some.injEq, Prod.mk.injEq] at h
                rw [← h.2.2]
                simp [benignB, List.all_append, hm1, hm4, run_command_all_benign]

theorem setup_python_all_benign (env : InstEnv) (hr : String) :
    (setup_python_environment env hr).2.all benignB = true := by
  unfold setup_python_environment
  split
  · rfl
  · decide

theorem install_surfer_all_benign (env : InstEnv) (hr : String) :
    (install_surfer env hr).2.all benignB = true := by
  unfold install_surfer
  split
  · rfl
  · rfl

theorem check_msgs_all_benign (n hint : String) (b : Bool)
    (hn1 : ¬(n ++ " is not installed!") = "AFF3CT installation failed")
    (hn2 : ¬(n ++ " is not installed!") = "StreamPU installation failed") :
    (check_msgs n hint b).all benignB = true := by
  unfold check_msgs
  split
  · rfl
  · simp [benignB, beq_eq_false_iff_ne, hn1, hn2]

theorem install_info_msgs_all_benign (hr : String) (a : Option Aff3ctInfo)
    (s : Option StreampuInfo) (p : Option String) :
    (install_info_msgs hr a s p).all benignB = true := by
  unfold install_info_msgs
  split
  · rfl
  · rfl

theorem final_summary_all_benign (a : Option Aff3ctInfo) (s : Option StreampuInfo)
    (p : Option String) : (final_summary_msgs a s p).all benignB = true := by
  rcases a with _ | ⟨ar, al, _ | ⟨sr2, sl2⟩⟩ <;> rcases s with _ | ⟨sr, sl⟩ <;>
    rcases p with _ | pp <;> simp [final_summary_msgs, benignB]

theorem venv_step_all_benign (env : InstEnv) (hr : String) (inputs : List String)
    (g : Bool) (i : List String) (ms : List Msg)
    (h : venv_step env hr inputs = some (g, i, ms)) : ms.all benignB = true := by
  rcases hsp : setup_python_environment env hr with ⟨v1, v2⟩
  have hv2 : v2.all benignB = true := by
    have h0 := setup_python_all_benign env hr
    rw [hsp] at h0; exact h0
  rcases hask : ask_yes_no "Continue anyway?" false inputs with _ | ⟨b, rem, ms2⟩
  · cases v1 with
    | none =>
      simp only [venv_step, hsp, hask, Option.isNone_none, if_true] at h
      exact Option.noConfusion h
    | some s =>
      simp only [venv_step, hsp, hask, Option.isNone_some, Bool.false_eq_true,
        if_false, Option.some.injEq, Prod.mk.injEq] at h
      rw [← h.2.2]; exact hv2
  · have hms2 := inst_ask_yes_no_all_benign _ _ _ _ _ _ hask
    cases v1 with
    | none =>
      simp only [venv_step, hsp, hask, Option.isNone_none, if_true,
        Option.some.injEq, Prod.mk.injEq] at h
      rw [← h.2.2]
      simp [benignB, List.all_append, hv2, hms2]
    | some s =>
      simp only [venv_step, hsp, hask, Option.isNone_some, Bool.false_eq_true,
        if_false, Option.some.injEq, Prod.mk.injEq] at h
      rw [← h.2.2]; exact hv2

theorem aff3ct_step_no_err_streampu (env : InstEnv) (hr : String) (inputs : List String)
    (r : Option Aff3ctInfo) (g : Bool) (i : List String) (ms : List Msg)
    (h : aff3ct_step env hr inputs = some (r, g, i, ms)) :
    Msg.err "StreamPU installation failed" ∉ ms := by
  unfold aff3ct_step at h
  split at h
  · exact Option.noConfusion h
  · next wantAff i1 mAskA heq =>
    have hAskA := inst_ask_yes_no_all_benign _ _ _ _ _ _ heq
    split at h
    · split at h
      · exact Option.noConfusion h
      · next affOpt i2 mA heq2 =>
        have hmA := install_aff3ct_all_benign _ _ _ _ _ _ heq2
        split at h
        · simp only [Option.some.injEq, Prod.mk.injEq] at h
          rw [← h.2.2.2]
          exact benignB_not_err_streampu (by simp [List.all_append, hAskA, hmA])
        · split at h
          · exact Option.noConfusion h
          · next b i3 mC heq3 =>
            have hmC := inst_ask_yes_no_all_benign _ _ _ _ _ _ heq3
            simp only [Option.some.injEq, Prod.mk.injEq] at h
            rw [← h.2.2.2]
            intro hm
            rcases List.mem_append.mp hm with hm | hm
            · exact benignB_not_err_streampu hAskA hm
            rcases List.mem_append.mp hm with hm | hm
            · exact benignB_not_err_streampu hmA hm
            rcases List.mem_append.mp hm with hm | hm
            · rcases List.mem_singleton.mp hm with hm2
              exact absurd hm2 (by decide)
            · exact benignB_not_err_streampu hmC hm
    · simp only [Option.some.injEq, Prod.mk.injEq] at h
      rw [← h.2.2.2]
      exact benignB_not_err_streampu hAskA

theorem aff3ct_step_err_implies_continue_ask (env : InstEnv) (hr : String)
    (inputs : List String) (r : Option Aff3ctInfo) (g : Bool) (i : List String)
    (ms : List Msg) (h : aff3ct_step env hr inputs = some (r, g, i, ms))
    (hmem : Msg.err "AFF3CT installation failed" ∈ ms) :
    Msg.ask "Continue anyway? [y/N]: " ∈ ms := by
  unfold aff3ct_step at h
  split at h
  · exact Option.noConfusion h
  · next wantAff i1 mAskA heq =>
    have hAskA := inst_ask_yes_no_all_benign _ _ _ _ _ _ heq
    split at h
    · split at h
      · exact Option.noConfusion h
      · next affOpt i2 mA heq2 =>
        have hmA := install_aff3ct_all_benign _ _ _ _ _ _ heq2
        split at h
        · simp only [Option.some.injEq, Prod.mk.injEq] at h
          rw [← h.2.2.2] at hmem
          exact absurd hmem (benignB_not_err_aff3ct (by simp [List.all_append, hAskA, hmA]))
        · split at h
          · exact Option.noConfusion h
          · next b i3 mC heq3 =>
            have hask := inst_ask_yes_no_mem_prompt _ _ _ _ _ _ heq3
            simp only [Option.some.injEq, Prod.mk.injEq] at h
            rw [← h.2.2.2]
            simp only [List.mem_append]
            right; right; right
            simpa using hask
    · simp only [Option.some.injEq, Prod.mk.injEq] at h
      rw [← h.2.2.2] at hmem
      exact absurd hmem (benignB_not_err_aff3ct hAskA)

theorem aff3ct_step_no_err_aff3ct_of_benign (env : InstEnv) (hr : String)
    (inputs : List String) (r : Option Aff3ctInfo) (g : Bool) (i : List String)
    (ms : List Msg) (h : aff3ct_step env hr inputs = some (r, g, i, ms)) :
    Msg.err "AFF3CT installation failed" ∈ ms →
      Msg.ask "Continue anyway? [y/N]: " ∈ ms :=
  aff3ct_step_err_implies_continue_ask env hr inputs r g i ms h

theorem streampu_decide_step_all_benign (a : Option Aff3ctInfo) (inputs : List String)
    (b : Bool) (i : List String) (ms : List Msg)
    (h : streampu_decide_step a inputs = some (b, i, ms)) : ms.all benignB = true := by
  rcases a with _ | ⟨ar, al, spu⟩
  · exact inst_ask_yes_no_all_benign _ _ _ _ _ _ h
  · rcases spu with _ | sp
    · exact inst_ask_yes_no_all_benign _ _ _ _ _ _ h
    · rcases hask : ask_yes_no "Do you still want to install StreamPU standalone?" false inputs
        with _ | ⟨b2, i2, m2⟩
      · simp only [streampu_decide_step, hask, Option.isSome_some, if_true] at h
        exact Option.noConfusion h
      · simp only [streampu_decide_step, hask, Option.isSome_some, if_true,
          Option.some.injEq, Prod.mk.injEq] at h
        rw [← h.2.2]
        simp [benignB, List.all_append, inst_ask_yes_no_all_benign _ _ _ _ _ _ hask]

theorem streampu_step_no_err_aff3ct (env : InstEnv) (hr : String) (want : Bool)
    (inputs : List String) (r : Option StreampuInfo) (i : List String) (ms : List Msg)
    (h : streampu_step env hr want inputs = some (r, i, ms)) :
    Msg.err "AFF3CT installation failed" ∉ ms := by
  unfold streampu_step at h
  split at h
  · split at h
    · exact Option.noConfusion h
    · next spuOpt i' mS heq =>
      have hmS := install_streampu_all_benign _ _ _ _ _ _ heq
      split at h
      · simp only [Option.some.injEq, Prod.mk.injEq] at h
        rw [← h.2.2]
        exact benignB_not_err_aff3ct hmS
      · simp only [Option.some.injEq, Prod.mk.injEq] at h
        rw [← h.2.2]
        intro hm
        rcases List.mem_append.mp hm with hm | hm
        · exact benignB_not_err_aff3ct hmS hm
        · rcases List.mem_singleton.mp hm with hm2
          exact absurd hm2 (by decide)
  · simp only [Option.some.injEq, Prod.mk.injEq] at h
    rw [← h.2.2]
    exact List.not_mem_nil _

theorem surfer_pair_all_benign (env : InstEnv) (hr : String) (w : Bool) :
    (if w then install_surfer env hr else (none, ([] : List Msg))).2.all benignB = true := by
  split
  · exact install_surfer_all_benign env hr
  · rfl

end InstallDeps

open InstallDeps in
/-- C5 (amended).  In every completed installer run: the run reaches any
point after a failed AFF3CT install only through the explicit
"Continue anyway?" prompt (whenever the log contains the AFF3CT failure
report it also contains that prompt), but after a failed standalone
StreamPU install the run proceeds unconditionally — whenever the log
contains the StreamPU failure report it also contains the *next* step's
prompt (the Surfer question), and no opt-in prompt guards it (see the
counterexample). -/
theorem c5_continue_optin_amended :
    ∀ (env : InstEnv) (hr : String) (inputs : List String) (c : Nat) (log : List Msg),
      install_main env hr inputs = some (c, log) →
      ((Msg.err "AFF3CT installation failed" ∈ log →
          Msg.ask "Continue anyway? [y/N]: " ∈ log) ∧
       (Msg.err "StreamPU installation failed" ∈ log →
          Msg.ask "\nDo you want to install Surfer (Waveform Viewer)? [Y/n]: " ∈ log)) := by
  intro env hr inputs c log h
  have hgit : ∀ b, (check_msgs "git" "git: sudo apt-get install git" b).all benignB = true :=
    fun b => check_msgs_all_benign _ _ b (by decide) (by decide)
  have hcmake : ∀ b, (check_msgs "cmake" "cmake: sudo apt-get install cmake" b).all benignB = true :=
    fun b => check_msgs_all_benign _ _ b (by decide) (by decide)
  have hgpp : ∀ b, (check_msgs "g++" "g++: sudo apt-get install build-essential" b).all benignB = true :=
    fun b => check_msgs_all_benign _ _ b (by decide) (by decide)
  have hhead : ([Msg.plain "Hulotte Dependencies Installer",
     Msg.info ("Hulotte root: " ++ hr),
     Msg.plain "Checking Prerequisites"]).all benignB = true := rfl
  unfold install_main at h
  split at h
  · simp only [Option.some.injEq, Prod.mk.injEq] at h
    have hb : log.all benignB = true := by
      rw [← h.2]
      simp [List.all_append, hhead, hgit, benignB]
    exact ⟨fun hm => absurd hm (benignB_not_err_aff3ct hb),
           fun hm => absurd hm (benignB_not_err_streampu hb)⟩
  · split at h
    · simp only [Option.some.injEq, Prod.mk.injEq] at h
      have hb : log.all benignB = true := by
        rw [← h.2]
        simp [List.all_append, hhead, hgit, hcmake, benignB]
      exact ⟨fun hm => absurd hm (benignB_not_err_aff3ct hb),
             fun hm => absurd hm (benignB_not_err_streampu hb)⟩
    · split at h
      · simp only [Option.some.injEq, Prod.mk.injEq] at h
        have hb : log.all benignB = true := by
          rw [← h.2]
          simp [List.all_append, hhead, hgit, hcmake, hgpp, benignB]
        exact ⟨fun hm => absurd hm (benignB_not_err_aff3ct hb),
               fun hm => absurd hm (benignB_not_err_streampu hb)⟩
      · split at h
        · exact Option.noConfusion h
        · next goOn i0 mVenv heqV =>
          have hmVenv := venv_step_all_benign _ _ _ _ _ _ heqV
          split at h
          · simp only [Option.some.injEq, Prod.mk.injEq] at h
            have hb : log.all benignB = true := by
              rw [← h.2]
              simp [List.all_append, hhead, hgit, hcmake, hgpp, hmVenv, benignB]
            exact ⟨fun hm => absurd hm (benignB_not_err_aff3ct hb),
                   fun hm => absurd hm (benignB_not_err_streampu hb)⟩
          · split at h
            · exact Option.noConfusion h
            · next aff3ct_info affGoOn i4 mAff heqA =>
              split at h
              · simp only [Option.some.injEq, Prod.mk.injEq] at h
                constructor
                · intro hm
                  rw [← h.2] at hm ⊢
                  have hpre : (([Msg.plain "Hulotte Dependencies Installer",
                      Msg.info ("Hulotte root: " ++ hr),
                      Msg.plain "Checking Prerequisites"]) ++
                      (check_msgs "git" "git: sudo apt-get install git" env.git_ok ++
                      (check_msgs "cmake" "cmake: sudo apt-get install cmake" env.cmake_ok ++
                      (check_msgs "g++" "g++: sudo apt-get install build-essential" env.gpp_ok ++
                      ([Msg.ok "All prerequisites satisfied"] ++ mVenv))))).all benignB = true := by
                    simp [List.all_append, hhead, hgit, hcmake, hgpp, hmVenv, benignB]
                  rcases List.mem_append.mp hm with hm | hm
                  · exact absurd hm (benignB_not_err_aff3ct hpre)
                  · exact List.mem_append.mpr (Or.inr
                      (aff3ct_step_err_implies_continue_ask _ _ _ _ _ _ _ heqA hm))
                · intro hm
                  rw [← h.2] at hm
                  exfalso
                  have hpre : (([Msg.plain "Hulotte Dependencies Installer",
                      Msg.info ("Hulotte root: " ++ hr),
                      Msg.plain "Checking Prerequisites"]) ++
                      (check_msgs "git" "git: sudo apt-get install git" env.git_ok ++
                      (check_msgs "cmake" "cmake: sudo apt-get install cmake" env.cmake_ok ++
                      (check_msgs "g++" "g++: sudo apt-get install build-essential" env.gpp_ok ++
                      ([Msg.ok "All prerequisites satisfied"] ++ mVenv))))).all benignB = true := by
                    simp [List.all_append, hhead, hgit, hcmake, hgpp, hmVenv, benignB]
                  rcases List.mem_append.mp hm with hm | hm
                  · exact benignB_not_err_streampu hpre hm
                  · exact aff3ct_step_no_err_streampu _ _ _ _ _ _ _ heqA hm
              · split at h
                · exact Option.noConfusion h
                · next wantSpu i6 mAskS heqS =>
                  have hmAskS := streampu_decide_step_all_benign _ _ _ _ _ heqS
                  split at h
                  · exact Option.noConfusion h
                  · next streampu_info i8 mSpu heqSS =>
                    split at h
                    · exact Option.noConfusion h
                    · next wantSurfer i9 mAskSf heqSf =>
                      have hmAskSf := inst_ask_yes_no_all_benign _ _ _ _ _ _ heqSf
                      simp only [Option.some.injEq, Prod.mk.injEq] at h
                      constructor
                      · intro hm
                        rw [← h.2] at hm ⊢
                        simp only [List.mem_append] at hm ⊢
                        rcases hm with hm | hm
                        · exfalso
                          rcases hm with hm | hm | hm | hm | hm | hm
                          · exact benignB_not_err_aff3ct hhead hm
                          · exact benignB_not_err_aff3ct (hgit _) hm
                          · exact benignB_not_err_aff3ct (hcmake _) hm
                          · exact benignB_not_err_aff3ct (hgpp _) hm
                          · exact absurd (List.mem_singleton.mp hm) (by decide)
                          · exact benignB_not_err_aff3ct hmVenv hm
                        rcases hm with hm | hm
                        · have := aff3ct_step_err_implies_continue_ask _ _ _ _ _ _ _ heqA hm
                          right; left; exact this
                        rcases hm with hm | hm
                        · exact absurd hm (benignB_not_err_aff3ct hmAskS)
                        rcases hm with hm | hm
                        · exact absurd hm (streampu_step_no_err_aff3ct _ _ _ _ _ _ _ heqSS)
                        rcases hm with hm | hm
                        · exact absurd hm (benignB_not_err_aff3ct hmAskSf)
                        rcases hm with hm | hm
                        · exact absurd hm (benignB_not_err_aff3ct (surfer_pair_all_benign env hr _))
                        rcases hm with hm | hm
                        · exact absurd hm (benignB_not_err_aff3ct (install_info_msgs_all_benign _ _ _ _))
                        · exact absurd hm (benignB_not_err_aff3ct (final_summary_all_benign _ _ _))
                      · intro hm
                        rw [← h.2]
                        have hask := inst_ask_yes_no_mem_prompt _ _ _ _ _ _ heqSf
                        simp only [List.mem_append]
                        right; right; right; right; left
                        simpa using hask

open InstallDeps in
/-- C5 (witness). -/
theorem c5_continue_optin_amended_witness :
    (Msg.err "AFF3CT installation failed" ∈
        main_log env_skip "/opt/hulotte" ["", "", "", "y", "n", "n"] →
      Msg.ask "Continue anyway? [y/N]: " ∈
        main_log env_skip "/opt/hulotte" ["", "", "", "y", "n", "n"]) ∧
    (Msg.err "StreamPU installation failed" ∈
        main_log env_skip "/opt/hulotte" ["", "", "", "y", "n", "n"] →
      Msg.ask "\nDo you want to install Surfer (Waveform Viewer)? [Y/n]: " ∈
        main_log env_skip "/opt/hulotte" ["", "", "", "y", "n", "n"]) :=
  c5_continue_optin_amended env_skip "/opt/hulotte" ["", "", "", "y", "n", "n"] 0
    (main_log env_skip "/opt/hulotte" ["", "", "", "y", "n", "n"]) (by decide)

open InstallDeps in
/-- C5 (counterexample).  With the standalone StreamPU clone failing, the
run reports "StreamPU installation failed" and then proceeds directly to
the Surfer step and finishes with exit code 0 — no "Continue anyway?"
prompt ever occurs, refuting "never proceeds past a failed install without
that explicit opt-in". -/
theorem c5_counterexample :
    (main_exit env_spu_fail "/opt/hulotte" ["n", "", "", "n"] = 0) ∧
    (Msg.err "StreamPU installation failed" ∈
      main_log env_spu_fail "/opt/hulotte" ["n", "", "", "n"]) ∧
    (Msg.ask "Continue anyway? [y/N]: " ∉
      main_log env_spu_fail "/opt/hulotte" ["n", "", "", "n"]) ∧
    (Msg.ask "\nDo you want to install Surfer (Waveform Viewer)? [Y/n]: " ∈
      main_log env_spu_fail "/opt/hulotte" ["n", "", "", "n"]) := by
  exact ⟨by decide, by decide, by decide, by decide⟩

end Hulotte
